import Mathlib

/-!
Verification development for the Multimodal Clinical Triage Agent.

This file shallowly embeds the core pipeline of the repository
(`src/utils.py`, `src/tools.py`, and the report-merge step of `src/app.py`)
into Lean 4, and proves or refutes the frozen claims about it.

Modelling conventions:
* Python `dict`s coming from `json.loads` are association lists with
  last-write-wins insertion (`oset`), so keys are unique as in Python.
* Machine integers are `Int`; Python floats appearing in the sepsis score
  are modelled as `ℚ` (the numeric literals involved are exactly
  representable; `int(x)` is truncation toward zero, `//` is floor
  division).
* Fallible Python code returns `Option`/`Except`; an exception escaping a
  function is an `Except.error`.
* External effects (the Gemini client, `time.time()`, matplotlib
  rendering, and the two model-backed summarisation helpers that the spec
  §6 lists as upstream collaborator interfaces) are parameters of an
  environment record `Env`, so every theorem quantifies over every
  behaviour of the external model.
-/

namespace MCTA

/-- Characters written via code points so that bracket characters never
appear as character literals. -/
def lbraceChar : Char := Char.ofNat 123

def rbraceChar : Char := Char.ofNat 125

def lbrackChar : Char := Char.ofNat 91

def rbrackChar : Char := Char.ofNat 93

def quoteChar : Char := '\"'

def backslashChar : Char := '\\'

/-- JSON values as produced by Python's `json.loads`. `nan`/`inf` model the
non-standard literals `NaN`, `Infinity`, `-Infinity` that Python accepts. -/
inductive Json where
  | null
  | bool (b : Bool)
  | num (q : ℚ)
  | str (s : String)
  | arr (elems : List Json)
  | obj (members : List (String × Json))
  | nan
  | inf (neg : Bool)
deriving Repr

abbrev JObj := List (String × Json)

/-- Python truthiness of a JSON-like value. -/
def Json.truthy : Json → Bool
  | .null => false
  | .bool b => b
  | .num q => q != 0
  | .str s => s != ""
  | .arr l => !l.isEmpty
  | .obj l => !l.isEmpty
  | .nan => true
  | .inf _ => true

/-- Python `v == 0` (true for `0`, `0.0`, `False`). -/
def Json.eqZero : Json → Bool
  | .num q => q == 0
  | .bool b => !b
  | _ => false

/-- Dictionary lookup (`d.get(k)` / `d[k]`). -/
def olookup : JObj → String → Option Json
  | [], _ => none
  | (k, v) :: rest, key => if k = key then some v else olookup rest key

/-- Key membership (`k in d`). -/
def ohasKey (l : JObj) (key : String) : Bool := (olookup l key).isSome

/-- `d[k] = v`: replace in place if the key exists, else append
(Python dict insertion-order semantics). -/
def oset : JObj → String → Json → JObj
  | [], key, v => [(key, v)]
  | (k, w) :: rest, key, v =>
    if k = key then (k, v) :: rest else (k, w) :: oset rest key v

/-- `a.update(b)` / `{**a, **b}`: every pair of `b` is written into `a`
in order, `b` winning on collisions. -/
def oupdate (a b : JObj) : JObj := b.foldl (fun acc kv => oset acc kv.1 kv.2) a

/-! ### Python string helpers -/

/-- Python `str.strip()` whitespace set (ASCII part). -/
def pyWs (c : Char) : Bool :=
  c = ' ' || c = '\t' || c = '\n' || c = '\x0d' || c = Char.ofNat 11 || c = Char.ofNat 12

def dropTrailing (p : Char → Bool) (l : List Char) : List Char :=
  (l.reverse.dropWhile p).reverse

/-- Python `s.strip()`. -/
def pyStrip (s : String) : String :=
  ⟨dropTrailing pyWs (s.toList.dropWhile pyWs)⟩

/-- Python `s.rstrip()`. -/
def pyRstrip (s : String) : String := ⟨dropTrailing pyWs s.toList⟩

/-- Python `s.rstrip(',')`. -/
def pyRstripComma (s : String) : String := ⟨dropTrailing (· = ',') s.toList⟩

/-- Python `s.lstrip()` is not used by the embedded code; `strip` and
`rstrip` above are. `pyFindChar` models `s.find(c)` (as `Option` instead
of `-1`). -/
def pyFindChar (s : String) (c : Char) : Option Nat :=
  (s.toList.findIdx? (· = c))

/-- Python `s.rfind(c)` (as `Option` instead of `-1`). -/
def pyRFindChar (s : String) (c : Char) : Option Nat :=
  match (s.toList.reverse.findIdx? (· = c)) with
  | some i => some (s.length - 1 - i)
  | none => none

/-- Python `s[a:b]` for `0 ≤ a ≤ b` (the only form the code uses). -/
def pySlice (s : String) (a b : Nat) : String :=
  ⟨(s.toList.drop a).take (b - a)⟩

/-- Python `sub in s` (substring containment). -/
def hasSubstr (s sub : String) : Bool :=
  s.toList.tails.any (fun t => sub.toList.isPrefixOf t)

/-- Python `s.endswith(t)`. -/
def pyEndsWith (s t : String) : Bool := t.toList.isSuffixOf s.toList

/-- Python `s.startswith(t)`. -/
def pyStartsWith (s t : String) : Bool := t.toList.isPrefixOf s.toList

/-- Python `s.split('\\n')` (kernel-computable, unlike `String.splitOn`). -/
def splitNlGo : List Char → List Char → List String
  | [], acc => [⟨acc.reverse⟩]
  | c :: rest, acc =>
    if c = '\n' then ⟨acc.reverse⟩ :: splitNlGo rest []
    else splitNlGo rest (c :: acc)

def pySplitNl (s : String) : List String := splitNlGo s.toList []

/-- Python `int(x)` on a number: truncation toward zero. -/
def pyInt (q : ℚ) : ℤ := if 0 ≤ q then ⌊q⌋ else ⌈q⌉

/-! ### A model of `json.loads`

Recursive-descent reader over `List Char` with a fuel argument
(`fuel = length + 1` always suffices since every nested value consumes at
least one character before recursing). Objects are built with `oset`, so
duplicate keys behave as in Python (last wins). Unicode surrogate pairing
of `\uXXXX` escapes is not modelled (no evaluated input uses it). -/

def jsonWs (c : Char) : Bool := c = ' ' || c = '\t' || c = '\n' || c = '\x0d'

def skipWs (cs : List Char) : List Char := cs.dropWhile jsonWs

def isDigit (c : Char) : Bool := '0' ≤ c && c ≤ '9'

def digitVal (c : Char) : Nat := c.toNat - '0'.toNat

def hexVal (c : Char) : Option Nat :=
  if isDigit c then some (digitVal c)
  else if 'A' ≤ c && c ≤ 'F' then some (10 + (c.toNat - 'A'.toNat))
  else if 'a' ≤ c && c ≤ 'f' then some (10 + (c.toNat - 'a'.toNat))
  else none

def readDigits : List Char → (List Nat × List Char)
  | c :: rest =>
    if isDigit c then
      let (ds, r) := readDigits rest
      (digitVal c :: ds, r)
    else ([], c :: rest)
  | [] => ([], [])

def digitsToNat (ds : List Nat) : Nat := ds.foldl (fun a d => a * 10 + d) 0

/-- Read a JSON number per `json.decoder`'s regex
`(-?(?:0|[1-9]\d*))(\.\d+)?([eE][-+]?\d+)?`. -/
def readNumber (cs : List Char) : Option (ℚ × List Char) := do
  let (neg, cs) := match cs with
    | '-' :: rest => (true, rest)
    | _ => (false, cs)
  let (intDs, cs) ← match cs with
    | '0' :: rest =>
      if (rest.head?.map isDigit).getD false then none else some ([0], rest)
    | c :: rest =>
      if isDigit c && c ≠ '0' then
        let (ds, r) := readDigits rest
        some (digitVal c :: ds, r)
      else none
    | [] => none
  let (fracDs, cs) ← match cs with
    | '.' :: rest =>
      let (ds, r) := readDigits rest
      if ds.isEmpty then none else some (ds, r)
    | _ => some ([], cs)
  let (expVal, cs) ← match cs with
    | c :: rest =>
      if c = 'e' || c = 'E' then
        let (esign, rest) := match rest with
          | '-' :: r => ((-1 : ℤ), r)
          | '+' :: r => ((1 : ℤ), r)
          | _ => ((1 : ℤ), rest)
        let (ds, r) := readDigits rest
        if ds.isEmpty then none else some (esign * (digitsToNat ds : ℤ), r)
      else some ((0 : ℤ), c :: rest)
    | [] => some ((0 : ℤ), [])
  let mantissa : ℤ := (digitsToNat intDs) * 10 ^ fracDs.length + digitsToNat fracDs
  let signed : ℤ := if neg then -mantissa else mantissa
  let t : ℤ := expVal - fracDs.length
  let value : ℚ :=
    if 0 ≤ t then mkRat (signed * 10 ^ t.toNat) 1 else mkRat signed (10 ^ (-t).toNat)
  some (value, cs)

def escMap (c : Char) : Option Char :=
  if c = quoteChar then some quoteChar
  else if c = backslashChar then some backslashChar
  else if c = '/' then some '/'
  else if c = 'b' then some (Char.ofNat 8)
  else if c = 'f' then some (Char.ofNat 12)
  else if c = 'n' then some '\n'
  else if c = 'r' then some '\x0d'
  else if c = 't' then some '\t'
  else none

/-- Read the body of a JSON string (opening quote already consumed).
Strict mode: unescaped control characters are rejected. -/
def readStringBody : Nat → List Char → Option (List Char × List Char)
  | 0, _ => none
  | _, [] => none
  | fuel + 1, c :: rest =>
    if c = quoteChar then some ([], rest)
    else if c = backslashChar then
      match rest with
      | [] => none
      | 'u' :: h1 :: h2 :: h3 :: h4 :: rest' => do
        let v1 ← hexVal h1
        let v2 ← hexVal h2
        let v3 ← hexVal h3
        let v4 ← hexVal h4
        let code := ((v1 * 16 + v2) * 16 + v3) * 16 + v4
        let (tl, r) ← readStringBody fuel rest'
        some (Char.ofNat code :: tl, r)
      | e :: rest' => do
        let ec ← escMap e
        let (tl, r) ← readStringBody fuel rest'
        some (ec :: tl, r)
    else if c.toNat < 32 then none
    else do
      let (tl, r) ← readStringBody fuel rest
      some (c :: tl, r)

mutual

/-- Read a JSON value whose first character is at the head of `cs`
(leading whitespace already skipped). -/
def readValue : Nat → List Char → Option (Json × List Char)
  | 0, _ => none
  | fuel + 1, cs =>
    match cs with
    | [] => none
    | c :: rest =>
      if c = lbraceChar then readMembers fuel (skipWs rest) [] true
      else if c = lbrackChar then readElems fuel (skipWs rest) [] true
      else if c = quoteChar then
        match readStringBody (rest.length + 1) rest with
        | some (body, r) => some (.str ⟨body⟩, r)
        | none => none
      else if c = 't' then
        match rest with
        | 'r' :: 'u' :: 'e' :: r => some (.bool true, r)
        | _ => none
      else if c = 'f' then
        match rest with
        | 'a' :: 'l' :: 's' :: 'e' :: r => some (.bool false, r)
        | _ => none
      else if c = 'n' then
        match rest with
        | 'u' :: 'l' :: 'l' :: r => some (.null, r)
        | _ => none
      else if c = 'N' then
        match rest with
        | 'a' :: 'N' :: r => some (.nan, r)
        | _ => none
      else if c = 'I' then
        match rest with
        | 'n' :: 'f' :: 'i' :: 'n' :: 'i' :: 't' :: 'y' :: r => some (.inf false, r)
        | _ => none
      else if c = '-' && rest.head? = some 'I' then
        match rest with
        | 'I' :: 'n' :: 'f' :: 'i' :: 'n' :: 'i' :: 't' :: 'y' :: r => some (.inf true, r)
        | _ => none
      else
        match readNumber (c :: rest) with
        | some (q, r) => some (.num q, r)
        | none => none
termination_by structural fuel cs => fuel

/-- Members of an object; `first` is true right after the opening brace.
`acc` uses `oset`, so a duplicate key overwrites (Python last-wins). -/
def readMembers : Nat → List Char → JObj → Bool → Option (Json × List Char)
  | 0, _, _, _ => none
  | fuel + 1, cs, acc, first =>
    match cs with
    | [] => none
    | c :: rest =>
      if first && c = rbraceChar then some (.obj acc, rest)
      else if c = quoteChar then
        match readStringBody (rest.length + 1) rest with
        | some (key, afterKey) =>
          match skipWs afterKey with
          | ':' :: afterColon =>
            match readValue fuel (skipWs afterColon) with
            | some (v, afterVal) =>
              let acc' := oset acc ⟨key⟩ v
              match skipWs afterVal with
              | e :: restEnd =>
                if e = rbraceChar then some (.obj acc', restEnd)
                else if e = ',' then readMembers fuel (skipWs restEnd) acc' false
                else none
              | [] => none
            | none => none
          | _ => none
        | none => none
      else none
termination_by structural fuel cs acc first => fuel

/-- Elements of an array; `first` is true right after the opening bracket. -/
def readElems : Nat → List Char → List Json → Bool → Option (Json × List Char)
  | 0, _, _, _ => none
  | fuel + 1, cs, acc, first =>
    match cs with
    | [] => none
    | c :: _ =>
      if first && c = rbrackChar then some (.arr acc.reverse, cs.tail)
      else
        match readValue fuel cs with
        | some (v, afterVal) =>
          match skipWs afterVal with
          | e :: restEnd =>
            if e = rbrackChar then some (.arr (acc.reverse ++ [v]), restEnd)
            else if e = ',' then readElems fuel (skipWs restEnd) (v :: acc) false
            else none
          | [] => none
        | none => none
termination_by structural fuel cs acc first => fuel

end

/-- Model of Python `json.loads`: parse one value, allow surrounding
whitespace, reject trailing input. `none` models `json.JSONDecodeError`. -/
def jsonParse (s : String) : Option Json :=
  match readValue (s.length + 1) (skipWs s.toList) with
  | some (v, rest) => if (skipWs rest).isEmpty then some v else none
  | none => none

/-! ### Kernel-computable rational arithmetic

`Rat.mul` / `Rat.div` / `Rat.add` do not reduce inside the kernel, so the
embedding computes with `mkRat` forms and carries bridging lemmas equating
them with the ordinary field operations. -/

def ratDivNat (q : ℚ) (n : ℕ) : ℚ := mkRat q.num (q.den * n)

def ratMulNat (q : ℚ) (n : ℕ) : ℚ := mkRat (q.num * n) q.den

def ratAdd (a b : ℚ) : ℚ := mkRat (a.num * b.den + b.num * a.den) (a.den * b.den)

/-! ### `json.dumps` / Python `str()` rendering (used only in log strings) -/

def hexDigitChar (n : Nat) : Char :=
  if n < 10 then Char.ofNat ('0'.toNat + n) else Char.ofNat ('a'.toNat + n - 10)

def uEscape (c : Char) : String :=
  let n := c.toNat
  "\\u" ++ ⟨[hexDigitChar (n / 4096 % 16), hexDigitChar (n / 256 % 16),
             hexDigitChar (n / 16 % 16), hexDigitChar (n % 16)]⟩

def jsonEscChar (c : Char) : String :=
  if c = quoteChar then "\\\""
  else if c = backslashChar then "\\\\"
  else if c = '\n' then "\\n"
  else if c = '\t' then "\\t"
  else if c = '\x0d' then "\\r"
  else if c = Char.ofNat 8 then "\\b"
  else if c = Char.ofNat 12 then "\\f"
  else if c.toNat < 32 || c.toNat > 127 then uEscape c
  else String.singleton c

def jsonQuote (s : String) : String :=
  "\"" ++ String.join (s.toList.map jsonEscChar) ++ "\""

/-- Python `str()`/`repr()` of a JSON number. Integral values print exactly
as Python does; non-integral values use `num/den` in place of Python's
shortest float repr (appears only inside free-text log lines on which no
claim depends). -/
def pyNumRepr (q : ℚ) : String :=
  if q.den = 1 then toString q.num else toString q.num ++ "/" ++ toString q.den

mutual

/-- Python `json.dumps` with default separators and `ensure_ascii=True`. -/
def jsonDumps : Json → String
  | .null => "null"
  | .bool b => if b then "true" else "false"
  | .num q => pyNumRepr q
  | .str s => jsonQuote s
  | .nan => "NaN"
  | .inf neg => if neg then "-Infinity" else "Infinity"
  | .arr l => "[" ++ dumpsList l ++ "]"
  | .obj l => "\x7b" ++ dumpsObj l ++ "\x7d"

def dumpsList : List Json → String
  | [] => ""
  | [x] => jsonDumps x
  | x :: y :: rest => jsonDumps x ++ ", " ++ dumpsList (y :: rest)

def dumpsObj : JObj → String
  | [] => ""
  | [(k, v)] => jsonQuote k ++ ": " ++ jsonDumps v
  | (k, v) :: m :: rest => jsonQuote k ++ ": " ++ jsonDumps v ++ ", " ++ dumpsObj (m :: rest)

end

mutual

/-- Python `str()` of a JSON-like value (dict/list repr with single-quoted
strings), used for `[OBSERVATION]` log lines. -/
def pyRepr : Json → String
  | .null => "None"
  | .bool b => if b then "True" else "False"
  | .num q => pyNumRepr q
  | .str s => "\x27" ++ s ++ "\x27"
  | .nan => "nan"
  | .inf neg => if neg then "-inf" else "inf"
  | .arr l => "[" ++ pyReprList l ++ "]"
  | .obj l => "\x7b" ++ pyReprObj l ++ "\x7d"

def pyReprList : List Json → String
  | [] => ""
  | [x] => pyRepr x
  | x :: y :: rest => pyRepr x ++ ", " ++ pyReprList (y :: rest)

def pyReprObj : JObj → String
  | [] => ""
  | [(k, v)] => "\x27" ++ k ++ "\x27: " ++ pyRepr v
  | (k, v) :: m :: rest => "\x27" ++ k ++ "\x27: " ++ pyRepr v ++ ", " ++ pyReprObj (m :: rest)

end

/-! ### `_repair_json` (`src/utils.py` lines 809-932) -/

/-- The brace/string scan of `_repair_json` (lines 825-853): starting at
the first brace, track brace depth and string state, and stop ("break")
when the depth returns to zero, recording that index as `end_idx`.
Arguments: remaining characters, current absolute index, `brace_count`,
`in_string`, `escape_next`, `end_idx`. -/
def braceScanGo : List Char → Nat → ℤ → Bool → Bool → Nat → ℤ × Nat
  | [], _, bc, _, _, ei => (bc, ei)
  | c :: rest, i, bc, inStr, esc, ei =>
    if esc then braceScanGo rest (i + 1) bc inStr false ei
    else if c = backslashChar then braceScanGo rest (i + 1) bc inStr true ei
    else if c = quoteChar then braceScanGo rest (i + 1) bc (!inStr) esc ei
    else if ¬ inStr then
      if c = lbraceChar then braceScanGo rest (i + 1) (bc + 1) inStr esc ei
      else if c = rbraceChar then
        if bc - 1 = 0 then (0, i)
        else braceScanGo rest (i + 1) (bc - 1) inStr esc ei
      else braceScanGo rest (i + 1) bc inStr esc ei
    else braceScanGo rest (i + 1) bc inStr esc ei

/-- The character loop of the line-fix pass (lines 866-884). It copies the
line unchanged and only updates `(in_string, escape_next)`, so we model it
as a state scan. -/
def lineScan : List Char → Bool → Bool → Bool × Bool
  | [], inStr, esc => (inStr, esc)
  | c :: rest, inStr, esc =>
    if esc then lineScan rest inStr false
    else if c = backslashChar then lineScan rest inStr true
    else if c = quoteChar then lineScan rest (!inStr) esc
    else lineScan rest inStr esc

/-- Post-scan fix of one line (lines 886-893): close an unterminated
string at end-of-line, before a trailing comma if present. -/
def fixLine (line : String) (inStr : Bool) : String × Bool :=
  if inStr ∧ pyStrip line ≠ "" ∧ ¬ pyEndsWith (pyRstrip line) "\"" then
    if pyEndsWith (pyRstrip line) "," then
      (pyRstripComma (pyRstrip line) ++ "\",", false)
    else (line ++ "\"", false)
  else (line, inStr)

/-- The line loop of `_repair_json` (lines 861-895); `in_string` and
`escape_next` persist across lines. Returns the repaired lines and the
final `in_string` state. -/
def fixLines : List String → Bool → Bool → List String × Bool
  | [], inStr, _ => ([], inStr)
  | l :: rest, inStr, esc =>
    let (inStr1, esc1) := lineScan l.toList inStr esc
    let (l', inStr2) := fixLine l inStr1
    let (ls, finStr) := fixLines rest inStr2 esc1
    (l' :: ls, finStr)

/-- Candidate construction of `_repair_json` (lines 825-901): the brace
scan with its truncation / closer-append step, then the line-fix pass,
then a final closing quote if a string is still open. -/
def repairCandidate (json_text : String) (startIdx : Nat) : String :=
  let scanned := braceScanGo (json_text.toList.drop startIdx) startIdx 0 false false startIdx
  let jt :=
    if scanned.1 > 0 then
      pySlice json_text 0 (scanned.2 + 1) ++ String.mk (List.replicate scanned.1.toNat rbraceChar)
    else json_text
  let fixed := fixLines (pySplitNl jt) false false
  let repaired := String.intercalate "\n" fixed.1
  if fixed.2 then repaired ++ "\"" else repaired

/-- `src/utils.py` `_repair_json`. The outer `except Exception` fallback
(lines 911-930) is dead code in the model: no statement in the guarded
block can raise anything but `json.JSONDecodeError`, which is caught at
line 907. The function validates its candidate with `json.loads` before
returning it, else returns `None`. -/
def _repair_json (json_text : String) : Option String :=
  if json_text = "" ∨ pyStrip json_text = "" then none
  else
    match pyFindChar json_text lbraceChar with
    | none => none
    | some startIdx =>
      let repaired := repairCandidate json_text startIdx
      if (jsonParse repaired).isSome then some repaired else none

/-! ### `_repair_json_aggressive` (`src/utils.py` lines 733-806) -/

/-- Per-line unescaped-quote count (lines 755-766); the escape flag is
reset at the start of every line. -/
def quoteCount : List Char → Bool → Nat → Nat
  | [], _, n => n
  | c :: rest, esc, n =>
    if esc then quoteCount rest false n
    else if c = backslashChar then quoteCount rest true n
    else if c = quoteChar then quoteCount rest false (n + 1)
    else quoteCount rest false n

/-- Per-line transform of `_repair_json_aggressive` (lines 768-785).
Returns the possibly fixed line and whether this line tripped the
odd-quote detector (`found_issue`). -/
def aggrFixLine (line : String) : String × Bool :=
  let qc := quoteCount line.toList false 0
  if qc % 2 = 1 ∧ ¬ pyEndsWith (pyRstrip line) "\"" then
    let line' :=
      if pyEndsWith (pyStrip line) "," then
        pyRstripComma (pyRstrip line) ++ "\","
      else if hasSubstr line ":" ∧ ¬ pyEndsWith (pyStrip line) "\"" then
        match pyFindChar line ':' with
        | some ci =>
          let valuePart := pyStrip (pySlice line (ci + 1) line.length)
          if pyStartsWith valuePart "\"" ∧ ¬ pyEndsWith valuePart "\"" then
            pySlice line 0 (ci + 1) ++ " \"" ++
              pyRstripComma (pyRstrip (pySlice valuePart 1 valuePart.length)) ++ "\","
          else line
        | none => line
      else line
    (line', true)
  else (line, false)

def countChar (s : String) (c : Char) : Nat := s.toList.count c

/-- Candidate construction of `_repair_json_aggressive` (lines 749-795):
fix every odd-quote line, and when at least one line tripped the detector,
rebalance braces and brackets globally (both counts are taken before
either append, as in the source). `none` means `found_issue` stayed false. -/
def aggrCandidate (json_text : String) : Option String :=
  let results := (pySplitNl json_text).map aggrFixLine
  if results.any (·.2) then
    let repaired := String.intercalate "\n" (results.map (·.1))
    let openBraces : ℤ := (countChar repaired lbraceChar : ℤ) - countChar repaired rbraceChar
    let openBrackets : ℤ := (countChar repaired lbrackChar : ℤ) - countChar repaired rbrackChar
    let repaired :=
      if openBraces > 0 then
        repaired ++ "\n" ++ String.mk (List.replicate openBraces.toNat rbraceChar)
      else repaired
    let repaired :=
      if openBrackets > 0 then
        repaired ++ String.mk (List.replicate openBrackets.toNat rbrackChar)
      else repaired
    some repaired
  else none

/-- `src/utils.py` `_repair_json_aggressive`. Validates with `json.loads`
before returning; returns `None` when no line trips the detector, when the
input has no opening brace, or when validation fails. -/
def _repair_json_aggressive (json_text : String) : Option String :=
  if json_text = "" ∨ pyStrip json_text = "" then none
  else
    match pyFindChar json_text lbraceChar with
    | none => none
    | some _ =>
      match aggrCandidate json_text with
      | some repaired => if (jsonParse repaired).isSome then some repaired else none
      | none => none

/-- The repair cascade as invoked by the orchestrator
(`_repair_json`, and `_repair_json_aggressive` on its failure;
e.g. `src/utils.py` lines 506-508). -/
def repairCascade (json_text : String) : Option String :=
  match _repair_json json_text with
  | some r => some r
  | none => _repair_json_aggressive json_text

/-! ### `src/tools.py` -/

structure SepsisResult where
  risk_score : ℤ
  score_category : String
deriving Repr

/-- `tools.py` `calculate_sepsis_risk`:
`score = (heart_rate // 10) + (respiratory_rate // 5) + int(lactate_level * 3)`.
Python `//` is floor division on the exact value and `int(x)` truncates
toward zero (`pyInt`); `ratDivNat`/`ratMulNat` are the kernel-computable
forms of `/` and `*` (see `ratDivNat_eq`, `ratMulNat_eq`). The final
`int(score)` is the identity here since all three summands are integers. -/
def calculate_sepsis_risk
    (heart_rate blood_pressure lactate_level respiratory_rate : ℚ) : SepsisResult :=
  let score : ℤ :=
    ⌊ratDivNat heart_rate 10⌋ + ⌊ratDivNat respiratory_rate 5⌋ + pyInt (ratMulNat lactate_level 3)
  { risk_score := score
    score_category := if 20 ≤ score then "High Risk" else "Low Risk" }

def sepsisResultJson (r : SepsisResult) : Json :=
  .obj [("risk_score", .num (mkRat r.risk_score 1)), ("score_category", .str r.score_category)]

/-- `calculate_sepsis_risk` as a registry entry: Python `func(**args)`
keyword binding (any missing, extra, or non-numeric argument raises
`TypeError`, which `execute_function_call` catches). -/
def sepsisToolFn (args : JObj) : Except String Json :=
  if args.length = 4 then
    match olookup args "heart_rate", olookup args "blood_pressure",
        olookup args "lactate_level", olookup args "respiratory_rate" with
    | some (.num hr), some (.num bp), some (.num lac), some (.num rr) =>
        .ok (sepsisResultJson (calculate_sepsis_risk hr bp lac rr))
    | _, _, _, _ => .error "TypeError: calculate_sepsis_risk() argument binding failed"
  else .error "TypeError: calculate_sepsis_risk() argument binding failed"

/-- `tools.py` `generate_vitals_visualization`: parse the JSON string,
raise `ValueError` on an empty list, extract `time`/`SpO2`/`HeartRate`
from every point (raising `KeyError` when absent), then render with
matplotlib — the rendering itself is presentation-layer work outside the
core (spec §1), modelled by the `render` parameter. -/
def generate_vitals_visualization (render : List Json → String)
    (time_series_data : String) : Except String String :=
  match jsonParse time_series_data with
  | none => .error "json.decoder.JSONDecodeError"
  | some (.arr data) =>
    if data.isEmpty then .error "time_series_data must contain at least one data point."
    else if data.all (fun d =>
        match d with
        | .obj l => ohasKey l "time" && ohasKey l "SpO2" && ohasKey l "HeartRate"
        | _ => false) then
      .ok (render data)
    else .error "KeyError"
  | some _ => .error "TypeError"

def vizToolFn (render : List Json → String) (args : JObj) : Except String Json :=
  if args.length = 1 then
    match olookup args "time_series_data" with
    | some (.str s) => (generate_vitals_visualization render s).map .str
    | some _ => .error "TypeError: the JSON object must be str, bytes or bytearray"
    | none => .error "TypeError: generate_vitals_visualization() argument binding failed"
  else .error "TypeError: generate_vitals_visualization() argument binding failed"

/-- `tools.py` `TOOL_CONFIG`, keyed by `__name__` as `execute_function_call`
looks tools up. -/
def TOOL_CONFIG (render : List Json → String) : List (String × (JObj → Except String Json)) :=
  [("calculate_sepsis_risk", sepsisToolFn), ("generate_vitals_visualization", vizToolFn render)]

/-! ### Gemini interface types (the spec §6 model-call boundary) -/

structure FunctionCall where
  name : String
  args : JObj
deriving Repr

/-- A `google.genai.types.Part`. -/
inductive GPart where
  | inlineData (dataB64 : String) (mime : String)
  | text (s : String)
  | functionCall (fc : FunctionCall)
  | functionResponse (name : String) (response : Json)
deriving Repr

structure Content where
  role : String
  parts : List GPart
deriving Repr

/-- `current_contents` in `run_triage_agent` is a heterogeneous Python
list: bare `Part`s at turn 0 (from `build_patient_contents`) and `Content`
objects appended later. -/
inductive ContentItem where
  | part (p : GPart)
  | content (c : Content)
deriving Repr

structure Candidate where
  content : Option Content
deriving Repr

/-- A model response: the SDK's `response.text` convenience property plus
the candidate list (which a behaviour may leave empty, e.g. for a blocked
prompt). -/
structure Response where
  text : Option String
  candidates : List Candidate
deriving Repr

/-- The two mutually exclusive call configurations built at
`utils.py` lines 369-380. -/
inductive GenConfig where
  | toolTurn
  | jsonTurn
deriving Repr, DecidableEq

/-- Outcome of one `client.models.generate_content` call: a response, an
`APIError` (with its class name and `str(e)`), or any other exception. -/
inductive GenOutcome where
  | response (r : Response)
  | apiError (clsName msg : String)
  | otherError (msg : String)

structure VitalsEntry where
  time : Option String
  spo2 : Option ℚ
  heartRate : Option ℚ
deriving Repr

/-- The external world as seen by the embedded code: client availability,
the model (free to depend on the call counter, the conversation so far and
the config), `time.time() % 1` jitter, the float formatter for the retry
log line, the two model-backed summarisation collaborators of spec §6, and
the matplotlib renderer. -/
structure Env where
  hasClient : Bool
  gen : Nat → List ContentItem → GenConfig → GenOutcome
  jitter : Nat → ℚ
  fmtWait : ℚ → String
  preprocessTabular : JObj → String
  preprocessTimeseries : List VitalsEntry → String
  render : List Json → String

def truthyS (o : Option String) : Bool := o.getD "" ≠ ""

def gpartText : GPart → Option String
  | .text s => some s
  | _ => none

def gpartFC : GPart → Option FunctionCall
  | .functionCall fc => some fc
  | _ => none

/-- ASCII `str.lower()` (kernel-computable; every string the code lowers
is ASCII). -/
def charLower (c : Char) : Char :=
  if 'A' ≤ c ∧ c ≤ 'Z' then Char.ofNat (c.toNat + 32) else c

def pyLower (s : String) : String := ⟨s.toList.map charLower⟩

/-- Python `s[n:]`. -/
def pyDropLeft (s : String) (n : Nat) : String := ⟨s.toList.drop n⟩

/-- Python `s[:-n]` for `0 < n ≤ len(s)` (the only use). -/
def pyDropRight (s : String) (n : Nat) : String := ⟨s.toList.take (s.length - n)⟩

/-! ### `execute_function_call` (`src/utils.py` lines 298-342) -/

/-- `execute_function_call`: look the name up in the registry (first match
by `__name__`); unknown names and tools that raise are converted to an
error-payload `Part` plus an `[ERROR]` log line — nothing is re-raised.
A successful call returns `Part.from_function_response` (the modern-SDK
branch of lines 323-333; its two legacy fallbacks are unreachable there). -/
def execute_function_call (tools : List (String × (JObj → Except String Json)))
    (func_name : String) (func_args : JObj) (tool_logs : List String) :
    GPart × List String :=
  match tools.find? (fun t => t.1 = func_name) with
  | none =>
    let error_msg := "Function " ++ func_name ++ " not found in TOOL_CONFIG"
    (.text (jsonDumps (.obj [("error", .str error_msg)])),
      tool_logs ++ ["[ERROR] " ++ error_msg])
  | some t =>
    match t.2 func_args with
    | .ok result =>
      (.functionResponse func_name (.obj [("result", result)]),
        tool_logs ++ ["[OBSERVATION] Host executed " ++ func_name ++ ": " ++ pyRepr result])
    | .error e =>
      let error_msg := "Execution of " ++ func_name ++ " failed: " ++ e
      (.text (jsonDumps (.obj [("error", .str error_msg)])),
        tool_logs ++ ["[ERROR] " ++ error_msg])

/-- The per-turn tool-execution loop (`utils.py` lines 625-639): each
requested call is logged (`[ACTION]`) and executed independently; result
parts are collected in request order. -/
def executeCalls (tools : List (String × (JObj → Except String Json))) :
    List FunctionCall → List String → List GPart × List String
  | [], logs => ([], logs)
  | c :: rest, logs =>
    let logs1 := logs ++
      ["[ACTION] Model requested: " ++ c.name ++ "(" ++ jsonDumps (.obj c.args) ++ ")"]
    let r1 := execute_function_call tools c.name c.args logs1
    let r2 := executeCalls tools rest r1.2
    (r1.1 :: r2.1, r2.2)

/-! ### `_get_raw_json_text` (`src/utils.py` lines 706-730) -/

/-- `_get_raw_json_text`: prefer `response.text`; else join the text parts
of the first candidate; else return `parts[0].text` directly (which may be
Python `None` — hence `.ok none`); a bare `except:` turns any failure of
that last access into the `ValueError` modelled by `.error`. -/
def _get_raw_json_text (r : Response) : Except String (Option String) :=
  let t0 := r.text
  let t1 : Option String :=
    if ¬ truthyS t0 ∧ ¬ r.candidates.isEmpty then
      match r.candidates.head? with
      | some c =>
        let parts := match c.content with
          | some co => co.parts
          | none => []
        some (String.intercalate "\n"
          ((parts.filterMap gpartText).filter (fun s => s ≠ "")))
      | none => t0
    else t0
  if ¬ truthyS t1 then
    match r.candidates.head? with
    | some c =>
      match c.content with
      | some co =>
        match co.parts.head? with
        | some p => .ok (gpartText p)
        | none => .error "No text content found in Gemini response."
      | none => .error "No text content found in Gemini response."
    | none => .error "No text content found in Gemini response."
  else .ok t1

/-! ### Markdown-fence stripping and report-shape checking -/

/-- Fence stripping as done at `utils.py` lines 485-493 (strip once at the
start and once at the end). -/
def stripMarkdownA (raw : String) : String :=
  let j := pyStrip raw
  let j := if pyStartsWith j "```json" then pyDropLeft j 7 else j
  let j := if pyStartsWith j "```" then pyDropLeft j 3 else j
  let j := if pyEndsWith j "```" then pyDropRight j 3 else j
  pyStrip j

/-- Fence stripping as done at lines 531-538 and 666-673 (strip after
every removal). -/
def stripMarkdownB (raw : String) : String :=
  let j := pyStrip raw
  let j := if pyStartsWith j "```json" then pyStrip (pyDropLeft j 7) else j
  let j := if pyStartsWith j "```" then pyStrip (pyDropLeft j 3) else j
  if pyEndsWith j "```" then pyStrip (pyDropRight j 3) else j

/-- Outcome of `json.loads` + the `isinstance(report, dict) and
"triage_urgency" in report` check: `good` (return the report), `parsedBad`
(valid JSON of the wrong shape — fall through, no repair), `failed`
(`JSONDecodeError` — try repair). -/
inductive ParseCheck where
  | good (l : JObj)
  | parsedBad
  | failed

def tryParseReport (j : String) : ParseCheck :=
  match jsonParse j with
  | some (.obj l) => if ohasKey l "triage_urgency" then .good l else .parsedBad
  | some _ => .parsedBad
  | none => .failed

/-! ### The injected JSON instructions (`utils.py` lines 580 and 655) -/

def jsonInstruction1 : String :=
  "Please provide your final diagnostic report as a JSON object only (no markdown, no explanation) with this exact structure: \x7b\"differential_diagnosis\": [\"...\"], \"triage_urgency\": \"RED|YELLOW|GREEN\", \"confidence_score\": 0.0-1.0, \"evidence_summary\": \"...\", \"tool_verification_data\": \x7b...\x7d\x7d"

def jsonInstruction2 : String :=
  "Now that you have the tool results, provide your final diagnostic report as a JSON object only (no markdown code blocks, no explanation text). The JSON must have this exact structure: \x7b\"differential_diagnosis\": [\"...\"], \"triage_urgency\": \"RED|YELLOW|GREEN\", \"confidence_score\": 0.0-1.0, \"evidence_summary\": \"...\", \"tool_verification_data\": \x7b...\x7d\x7d. Include the tool results in the tool_verification_data field."

/-! ### `build_patient_contents` (`src/utils.py` lines 188-295)

`preprocess_tabular_data` and `preprocess_timeseries_data` are the lab and
vitals summarisation collaborator interfaces of spec §6 ("the core only
depends on their declared return shapes"); the first one calls the
external model itself, so both live in `Env`. -/

def sentinelLabs : String := "Tabular Data Feature: No lab data available."

def sentinelVitals : String := "Time-Series Feature: No vitals data available."

def lactateKeys : List String :=
  ["Lactate_level", "Lactate", "LAC", "Lactic_Acid", "lactate", "lac"]

/-- The lactate lookup loop (`utils.py` lines 262-267): first key whose
value is truthy. -/
def firstTruthyKey (l : JObj) : List String → Option Json
  | [] => none
  | k :: ks =>
    match olookup l k with
    | some v => if v.truthy then some v else firstTruthyKey l ks
    | none => firstTruthyKey l ks

/-- Python `str(v)` as used in f-strings (strings print bare, containers
via `repr`). -/
def pyStr : Json → String
  | .str s => s
  | v => pyRepr v

/-- The instruction block built at `utils.py` lines 234-292. -/
def buildInstructionText (labs_json : Option JObj) (vitals_list : Option (List VitalsEntry))
    (image_analysis_text : Option String) : String :=
  let hasVitals : Bool := match vitals_list with
    | some vl => decide (2 ≤ vl.length)
    | none => false
  let hasLabs : Bool := match labs_json with
    | some l =>
      !l.isEmpty &&
        l.any (fun kv => !(kv.2 matches Json.null) && !kv.2.eqZero && kv.2.truthy)
    | none => false
  let hasImage : Bool := match image_analysis_text with
    | some t => t ≠ "" && pyStrip t ≠ ""
    | none => false
  if hasVitals || hasLabs || hasImage then
    let p0 := ["CRITICAL TOOL CALLING REQUIREMENTS:",
      "1. You MUST call calculate_sepsis_risk. Extract parameters from available data:"]
    let hrDefault := "   - heart_rate: Extract from patient notes or image analysis, or use 80 as default"
    let hrLines :=
      if hasVitals then
        let hrs := (vitals_list.getD []).filterMap (·.heartRate)
        if ¬ hrs.isEmpty then
          let avg := pyInt (ratDivNat (hrs.foldl ratAdd 0) hrs.length)
          ["   - heart_rate: " ++ toString avg ++ " (from vitals)"]
        else [hrDefault]
      else [hrDefault]
    let bpLine := ["   - blood_pressure: Extract systolic from patient notes or image analysis (look for \x27BP\x27, \x27blood pressure\x27, numbers like \x27120/80\x27) or use 120 as default"]
    let lactateValue : Option Json := match labs_json with
      | some l => if ¬ l.isEmpty then firstTruthyKey l lactateKeys else none
      | none => none
    let lacLines := match lactateValue with
      | some v => ["   - lactate_level: " ++ pyStr v ++ " (from labs)"]
      | none => ["   - lactate_level: Extract from patient notes or image analysis, or use 1.0 as default"]
    let rrLine := ["   - respiratory_rate: Extract from patient notes or image analysis (look for \x27RR\x27, \x27respiratory rate\x27, \x27breathing rate\x27) or use 16 as default"]
    let vizLines :=
      if hasVitals then
        ["2. You MUST call generate_vitals_visualization. Convert the vitals list to JSON string:",
         "   - time_series_data: JSON string of " ++ toString (vitals_list.getD []).length ++ " vitals measurements",
         "   - Example format: \x27[\x7b\"time\":\"00:00\",\"SpO2\":98,\"HeartRate\":72\x7d,...]\x27"]
      else if hasImage &&
          ["spo2", "heart rate", "hr", "vitals"].any
            (fun t => hasSubstr (pyLower (image_analysis_text.getD "")) t) then
        ["2. You MUST call generate_vitals_visualization if you can extract vitals from the image analysis or patient notes.",
         "   - Convert vitals to JSON string format: \x27[\x7b\"time\":\"00:00\",\"SpO2\":98,\"HeartRate\":72\x7d,...]\x27"]
      else []
    let tailLines :=
      ["3. After calling the tools, synthesize all data and provide your final JSON report.",
       "4. Include tool results in tool_verification_data field:",
       "   - sepsis_risk: \x7brisk_score: <number>, score_category: \x27High Risk\x27 or \x27Low Risk\x27\x7d",
       "   - visualization_base64: <base64 string from generate_vitals_visualization>"]
    String.intercalate "\n" (p0 ++ hrLines ++ bpLine ++ lacLines ++ rrLine ++ vizLines ++ tailLines)
  else
    "You have limited data. If you can extract any vitals or lab values from patient notes or image analysis, call the appropriate tools."

/-- `build_patient_contents`: image part (when both pieces are present)
first; then, in fixed order, the patient-notes text, the optional image
analysis, a labs summary (sentinel when labs are absent/empty), a vitals
summary (sentinel likewise), and the final instruction block.
`file_to_part` (base64 decode) is modelled as carrying the base64 payload. -/
def build_patient_contents (env : Env) (user_input_text : String)
    (uploaded_image_base64 uploaded_image_mime : Option String)
    (labs_json : Option JObj) (vitals_list : Option (List VitalsEntry))
    (image_analysis_text : Option String) : List GPart :=
  let parts : List GPart :=
    if truthyS uploaded_image_base64 ∧ truthyS uploaded_image_mime then
      [.inlineData (uploaded_image_base64.getD "") (uploaded_image_mime.getD "")]
    else []
  let parts := parts ++ [.text ("Patient Notes: " ++ user_input_text)]
  let parts := parts ++
    (match image_analysis_text with
     | some t => if t ≠ "" then [GPart.text ("Image Analysis (from Gemini): " ++ t)] else []
     | none => [])
  let parts := parts ++
    [match labs_json with
     | some l => if ¬ l.isEmpty then GPart.text (env.preprocessTabular l) else .text sentinelLabs
     | none => .text sentinelLabs]
  let parts := parts ++
    [match vitals_list with
     | some vl => if ¬ vl.isEmpty then GPart.text (env.preprocessTimeseries vl) else .text sentinelVitals
     | none => .text sentinelVitals]
  parts ++ [.text (buildInstructionText labs_json vitals_list image_analysis_text)]

/-! ### The multi-turn loop (`run_triage_agent`, `src/utils.py` 345-703) -/

def MAX_TURNS : Nat := 5

def MAX_RETRIES : Nat := 5

/-- The transient-error classifier of lines 434-442 (case-insensitive
substring match on `str(e)`). -/
def isRetryableErr (e : String) : Bool :=
  let s := pyLower e
  hasSubstr s "429" || hasSubstr s "resource_exhausted" || hasSubstr s "quota" ||
    hasSubstr s "500" || hasSubstr s "internal" || hasSubstr s "server"

structure RunResult where
  report : Option JObj
  rawText : Option String
  toolLog : List String
  errors : List String
deriving Repr

instance : Inhabited RunResult := ⟨⟨none, none, [], []⟩⟩

structure LoopState where
  toolLogs : List String
  errors : List String
  contents : List ContentItem
  fnRespAdded : Bool
  jsonAttempted : Bool
  lastResponse : Option Response
  callIdx : Nat
  waits : List ℚ
  turnsRun : Nat

instance : Inhabited LoopState := ⟨⟨[], [], [], false, false, none, 0, [], 0⟩⟩

/-- Exceptions that `run_triage_agent` can raise to its caller. -/
inductive RunError where
  | clientNotInitialized
  | noCandidates
deriving Repr, DecidableEq

inductive RetryOut where
  | fatal (res : RunResult) (st : LoopState)
  | got (r : Response) (st : LoopState)
  | ranOut (st : LoopState)

/-- The exponential-backoff retry loop (lines 418-454). `rem` is the
remaining iterations of `range(MAX_RETRIES)` and `attempt` the current
`retry_attempt`; a transient error with `attempt < MAX_RETRIES - 1` sleeps
`2 ** attempt + time.time() % 1` and retries; anything else returns the
fatal four-tuple at once. `.ranOut` mirrors the dead
`if response is None: break` at line 456 (unreachable: the final iteration
always returns). -/
def retryGo (env : Env) (cfg : GenConfig) : Nat → Nat → LoopState → RetryOut
  | 0, _, st => .ranOut st
  | rem + 1, attempt, st =>
    match env.gen st.callIdx st.contents cfg with
    | .response r =>
      .got r { st with callIdx := st.callIdx + 1, lastResponse := some r }
    | .apiError cls msg =>
      let st1 := { st with callIdx := st.callIdx + 1 }
      if isRetryableErr msg ∧ attempt < MAX_RETRIES - 1 then
        let w := (2 : ℚ) ^ attempt + env.jitter st.callIdx
        retryGo env cfg rem (attempt + 1)
          { st1 with
            toolLogs := st1.toolLogs ++
              ["[ERROR] API Quota/Server Error. Retrying in " ++ env.fmtWait w ++ "s..."],
            waits := st1.waits ++ [w] }
      else
        .fatal { report := none, rawText := some ("Error: " ++ msg),
                 toolLog := st1.toolLogs,
                 errors := st1.errors ++
                   ["Fatal API Error after " ++ toString MAX_RETRIES ++ " retries: " ++
                     cls ++ " - " ++ msg] } st1
    | .otherError msg =>
      let st1 := { st with callIdx := st.callIdx + 1 }
      .fatal { report := none, rawText := some "Error: Unexpected Runtime Issue.",
               toolLog := st1.toolLogs,
               errors := st1.errors ++ ["Unexpected Error: " ++ msg] } st1

inductive StepOut where
  | ret (res : RunResult)
  | cont (st : LoopState)

/-- First extraction attempt of a no-function-call turn
(`utils.py` lines 483-519): strip fences once, parse, and on
`JSONDecodeError` run the repair cascade; only a dict containing
`triage_urgency` is returned. -/
def firstTryFn (turn : Nat) (logs1 errors : List String) (rawOpt : Option String) :
    Option RunResult :=
  let raw := rawOpt.getD ""
  if truthyS rawOpt ∧ pyStrip raw ≠ "" then
    let jt := stripMarkdownA raw
    if jt ≠ "" then
      match tryParseReport jt with
      | .good l =>
        some { report := some l, rawText := some jt,
               toolLog := logs1 ++
                 ["[Turn " ++ toString turn ++ "] Final response received and parsed as JSON."],
               errors := errors }
      | .parsedBad => none
      | .failed =>
        match repairCascade jt with
        | some rep =>
          match tryParseReport rep with
          | .good l =>
            some { report := some l, rawText := some rep,
                   toolLog := logs1 ++
                     ["[Turn " ++ toString turn ++
                       "] Final response received and parsed as JSON (after repair)."],
                   errors := errors }
          | _ => none
        | none => none
    else none
  else none

/-- Second extraction attempt (lines 541-570), applied to the
`stripMarkdownB`-cleaned text when it looks like JSON. -/
def secondTryFn (turn : Nat) (logs1 errors : List String) (jc : String) :
    Option RunResult :=
  if jc ≠ "" ∧ (pyStartsWith jc "\x7b" ∨ hasSubstr jc "triage_urgency") then
    match tryParseReport jc with
    | .good l =>
      some { report := some l, rawText := some jc,
             toolLog := logs1 ++
               ["[Turn " ++ toString turn ++ "] Final response received (parsed as JSON from text)."],
             errors := errors }
    | .parsedBad => none
    | .failed =>
      match repairCascade jc with
      | some rep =>
        match tryParseReport rep with
        | .good l =>
          some { report := some l, rawText := some rep,
                 toolLog := logs1 ++
                   ["[Turn " ++ toString turn ++ "] Successfully parsed JSON after repair."],
                 errors := errors }
        | _ => none
      | none => none
  else none

/-- Third extraction attempt (lines 588-612): cut the first-brace to
last-brace window and parse or `_repair_json`-repair it. On repair failure
the source applies `_repair_json_aggressive` to the already-`None` result
(lines 600-602), so the aggressive repair can never contribute here. -/
def thirdTryFn (turn : Nat) (logs1 errors : List String) (jc : String) :
    Option RunResult :=
  match pyFindChar jc lbraceChar, pyRFindChar jc rbraceChar with
  | some si, some ei =>
    if si < ei then
      let je := pySlice jc si (ei + 1)
      match jsonParse je with
      | some rep =>
        (match rep with
         | .obj l =>
           if ohasKey l "triage_urgency" then
             some { report := some l, rawText := some je,
                    toolLog := logs1 ++
                      ["[Turn " ++ toString turn ++
                        "] Successfully extracted JSON from text response."],
                    errors := errors }
           else none
         | _ => none)
      | none =>
        match _repair_json je with
        | some je2 =>
          (match jsonParse je2 with
           | some (.obj l) =>
             if ohasKey l "triage_urgency" then
               some { report := some l, rawText := some je2,
                      toolLog := logs1 ++
                        ["[Turn " ++ toString turn ++
                          "] Successfully extracted JSON from text response."],
                      errors := errors }
             else none
           | _ => none)
        | none => none
    else none
  | _, _ => none

/-- The no-function-call half of a turn (`utils.py` lines 474-619):
try to parse (and repair) the response text as a report containing
`triage_urgency`; in JSON mode a failure is terminal; in tool mode the
first failure injects a JSON-only instruction and continues, a repeat
failure makes the brace-window extraction attempt and then returns the raw
text with an error. -/
def noFnBranch (turn : Nat) (cfg : GenConfig) (modelContent : Option Content)
    (resp : Response) (st : LoopState) : StepOut :=
  let extracted := _get_raw_json_text resp
  let rawOpt : Option String :=
    match extracted with
    | .ok t => t
    | .error _ => none
  let logs1 :=
    match extracted with
    | .ok _ => st.toolLogs
    | .error m => st.toolLogs ++
        ["[Turn " ++ toString turn ++ "] Could not extract text from response: " ++ m]
  let raw := rawOpt.getD ""
  match firstTryFn turn logs1 st.errors rawOpt with
  | some res => .ret res
  | none =>
    if cfg = .jsonTurn then
      .ret { report := none,
             rawText := some (if truthyS rawOpt then raw else "No text content"),
             toolLog := logs1,
             errors := st.errors ++
               ["Final response was not valid JSON despite structured output config."] }
    else
      match modelContent with
      | some mc =>
        if truthyS rawOpt ∧ pyStrip raw ≠ "" then
          let jc := stripMarkdownB raw
          match secondTryFn turn logs1 st.errors jc with
          | some res => .ret res
          | none =>
            if ¬ st.jsonAttempted then
              .cont { st with
                toolLogs := logs1,
                contents := st.contents ++
                  [.content mc, .content ⟨"user", [.text jsonInstruction1]⟩],
                jsonAttempted := true }
            else
              match thirdTryFn turn logs1 st.errors jc with
              | some res => .ret res
              | none =>
                .ret { report := none, rawText := rawOpt, toolLog := logs1,
                       errors := st.errors ++
                         ["Could not parse final response as valid JSON. Returning raw text."] }
        else
          .ret { report := none, rawText := none, toolLog := logs1,
                 errors := st.errors ++
                   ["Model returned empty or invalid content on turn " ++ toString turn ++ "."] }
      | none =>
        .ret { report := none, rawText := none, toolLog := logs1,
               errors := st.errors ++
                 ["Model returned empty or invalid content on turn " ++ toString turn ++ "."] }

/-- The function-call half of a turn (lines 621-658): log, execute every
call through the registry, then append the model content, the tool
results (role `user`) and the post-tools JSON instruction to history. -/
def fnBranch (env : Env) (turn : Nat) (mc : Content) (calls : List FunctionCall)
    (st : LoopState) : LoopState :=
  let logs := st.toolLogs ++
    ["[Turn " ++ toString turn ++ "] Model requested " ++ toString calls.length ++
      " function call(s)."]
  let (parts, logs') := executeCalls (TOOL_CONFIG env.render) calls logs
  { st with
    toolLogs := logs',
    contents := st.contents ++
      [.content mc, .content ⟨"user", parts⟩, .content ⟨"user", [.text jsonInstruction2]⟩],
    fnRespAdded := true }

/-- The dynamic configuration choice at the top of each turn
(`utils.py` lines 397-416): forced JSON mode right after tool results,
retried JSON mode from turn 2 on once attempted, else tool mode. -/
def chooseConfig (turn : Nat) (st : LoopState) : GenConfig × LoopState :=
  if st.fnRespAdded then
    (GenConfig.jsonTurn, { st with fnRespAdded := false, jsonAttempted := true })
  else if st.jsonAttempted ∧ 2 ≤ turn then (GenConfig.jsonTurn, st)
  else (GenConfig.toolTurn, st)

/-- The post-outcome loop state of a retry-loop outcome. -/
def RetryOut.state : RetryOut → LoopState
  | .fatal _ st => st
  | .got _ st => st
  | .ranOut st => st

/-- One pass of `for turn_count in range(MAX_TURNS)`. `.ok (none, st)`
means the loop fell through to the post-loop salvage code; `turnsRun` in
the state counts the iterations entered. -/
def runLoop (env : Env) : Nat → Nat → LoopState → Except RunError (Option RunResult × LoopState)
  | 0, _, st => .ok (none, st)
  | fuel + 1, turn, stIn =>
    let st0 := { stIn with turnsRun := stIn.turnsRun + 1 }
    let cs := chooseConfig turn st0
    let cfg := cs.1
    let st := cs.2
    match retryGo env cfg MAX_RETRIES 0 st with
    | .fatal res st' => .ok (some res, st')
    | .ranOut st' => .ok (none, st')
    | .got r st' =>
      match r.candidates.head? with
      | none => .error .noCandidates
      | some cand =>
        match cand.content with
        | none =>
          match noFnBranch turn cfg none r st' with
          | .ret res => .ok (some res, st')
          | .cont st'' => runLoop env fuel (turn + 1) st''
        | some mc =>
          let fcs := if ¬ mc.parts.isEmpty then mc.parts.filterMap gpartFC else []
          if fcs.isEmpty then
            match noFnBranch turn cfg (some mc) r st' with
            | .ret res => .ok (some res, st')
            | .cont st'' => runLoop env fuel (turn + 1) st''
          else runLoop env fuel (turn + 1) (fnBranch env turn mc fcs st')

/-- The post-budget salvage (`utils.py` lines 660-699), as a pure
function of the last response: take the text (any exception or a `None`
text gives up), strip fences, cut the first-`\x7b`-to-last-`\x7d` window,
parse or `_repair_json`-repair it, and accept any non-empty dict —
without requiring `triage_urgency`. -/
def finalExtract : Option Response → Option (JObj × String)
  | none => none
  | some r =>
    match _get_raw_json_text r with
    | .error _ => none
    | .ok none => none
    | .ok (some raw) =>
      let jc := stripMarkdownB raw
      match pyFindChar jc lbraceChar, pyRFindChar jc rbraceChar with
      | some si, some ei =>
        if si < ei then
          let je := pySlice jc si (ei + 1)
          match jsonParse je with
          | some (.obj l) => if ¬ l.isEmpty then some (l, je) else none
          | some _ => none
          | none =>
            match _repair_json je with
            | some rep =>
              match jsonParse rep with
              | some (.obj l) => if ¬ l.isEmpty then some (l, rep) else none
              | _ => none
            | none => none
        else none
      | _, _ => none

structure RunStats where
  turns : Nat
  calls : Nat
  waits : List ℚ
  exhausted : Bool
  lastResponse : Option Response

def statsOf (st : LoopState) (exhausted : Bool) : RunStats :=
  { turns := st.turnsRun, calls := st.callIdx, waits := st.waits,
    exhausted := exhausted, lastResponse := st.lastResponse }

instance : Inhabited RunStats := ⟨⟨0, 0, [], false, none⟩⟩

/-- The loop state at entry of the turn loop: empty logs and errors, the
initial contents from `build_patient_contents` (bare parts), no JSON
attempt yet and zero calls/turns. -/
def initState (env : Env) (user_input_text : String)
    (uploaded_image_base64 uploaded_image_mime : Option String)
    (labs_json : Option JObj) (vitals_list : Option (List VitalsEntry))
    (image_analysis_text : Option String) : LoopState :=
  { toolLogs := [], errors := [],
    contents := (build_patient_contents env user_input_text uploaded_image_base64
      uploaded_image_mime labs_json vitals_list image_analysis_text).map .part,
    fnRespAdded := false, jsonAttempted := false, lastResponse := none,
    callIdx := 0, waits := [], turnsRun := 0 }

/-- `run_triage_agent`. Raises `ValueError` when no client is configured
(line 360); otherwise builds the initial contents, runs up to `MAX_TURNS`
turns, and on budget exhaustion makes exactly one `finalExtract` attempt
against the last captured response: success returns that report with a
warning error, failure returns no report with a "Maximum turns" error. -/
def run_triage_agent (env : Env) (user_input_text : String)
    (uploaded_image_base64 uploaded_image_mime : Option String)
    (labs_json : Option JObj) (vitals_list : Option (List VitalsEntry))
    (image_analysis_text : Option String) :
    Except RunError (RunResult × RunStats) :=
  if ¬ env.hasClient then .error .clientNotInitialized
  else
    match runLoop env MAX_TURNS 0 (initState env user_input_text uploaded_image_base64
      uploaded_image_mime labs_json vitals_list image_analysis_text) with
    | .error e => .error e
    | .ok (some res, st) => .ok (res, statsOf st false)
    | .ok (none, st) =>
      match finalExtract st.lastResponse with
      | some (l, je) =>
        .ok ({ report := some l, rawText := some je,
               toolLog := st.toolLogs ++
                 ["[Final Attempt] Extracted JSON from last response after " ++
                   toString MAX_TURNS ++ " turns."],
               errors := st.errors ++
                 ["Warning: Maximum turns reached, but extracted partial response."] },
             statsOf st true)
      | none =>
        .ok ({ report := none, rawText := none,
               toolLog := st.toolLogs ++
                 ["[ERROR] Loop completed " ++ toString MAX_TURNS ++
                   " turns without valid JSON response."],
               errors := st.errors ++
                 ["Maximum turns (" ++ toString MAX_TURNS ++ ") reached without final response."] },
             statsOf st true)

/-! ### The fallback-merge step of `src/app.py` `main` (lines 419-432) -/

/-- The merge applied when Gemini fallback extraction produced
`fallback_results`: if both sides carry `tool_verification_data`, that
sub-dict is rebuilt as `{**existing_tvd, **new_tvd}` (fallback wins on
collisions) and the remaining fallback keys are `dict.update`d over the
report; otherwise the whole fallback is `dict.update`d over the report.
A truthy non-mapping `tool_verification_data` would make the `{**...}`
spread raise `TypeError` (modelled as `.error`). An empty (falsy)
`fallback_results` skips the merge entirely. -/
def tvdKey : String := "tool_verification_data"

/-- The `x or {}` coercion applied to the `tool_verification_data` entry
of each side (`app.py` lines 425-426). -/
def coerceTvd : Option Json → Json
  | some v => if v.truthy then v else .obj []
  | none => .obj []

def mergeFallback (report0 : Option JObj) (fallback : JObj) : Except String (Option JObj) :=
  if fallback.isEmpty then .ok report0
  else
    let rep : JObj := match report0 with
      | some l => l
      | none => []
    if ohasKey fallback tvdKey ∧ ohasKey rep tvdKey then
      match coerceTvd (olookup rep tvdKey), coerceTvd (olookup fallback tvdKey) with
      | .obj e, .obj n =>
        .ok (some (oupdate (oset rep tvdKey (.obj (oupdate e n)))
          (fallback.filter (fun kv => kv.1 ≠ tvdKey))))
      | _, _ => .error "TypeError: mapping spread on a non-mapping"
    else .ok (some (oupdate rep fallback))

def c5render : List Json → String := fun _ => "BASE64PNG"

def c9env : Env :=
  { hasClient := true, gen := fun _ _ _ => .otherError "unused",
    jitter := fun _ => 0, fmtWait := fun _ => "0.00",
    preprocessTabular := fun _ => "Tabular Data Feature: labs",
    preprocessTimeseries := fun _ => "Time-Series Feature: vitals",
    render := fun _ => "PNG" }

/-! ### Exact single-step retry equations and run composition -/

/-- The backoff wait `2 ** retry_attempt + time.time() % 1` of
`utils.py` line 444. -/
def bwait (env : Env) (attempt cIdx : Nat) : ℚ := (2 : ℚ) ^ attempt + env.jitter cIdx

/-- The retry log line of `utils.py` line 446. -/
def blog (env : Env) (attempt cIdx : Nat) : String :=
  "[ERROR] API Quota/Server Error. Retrying in " ++ env.fmtWait (bwait env attempt cIdx) ++
    "s..."

/-- A model stub that requests a (unknown) tool call on every turn and
never produces structured output or usable text. -/
def c1env : Env :=
  { hasClient := true,
    gen := fun _ _ _ => .response
      ⟨none, [⟨some ⟨"model", [.functionCall ⟨"noop", []⟩]⟩⟩]⟩,
    jitter := fun _ => 0, fmtWait := fun _ => "0.00",
    preprocessTabular := fun _ => "T",
    preprocessTimeseries := fun _ => "TS",
    render := fun _ => "PNG" }

def c1out : RunResult × RunStats :=
  (run_triage_agent c1env "notes" none none none none none).toOption.getD default

/-- An environment with no configured client (`GEMINI_API_KEY` missing):
`run_triage_agent` raises `ValueError` at `utils.py` line 360. -/
def c2envNoClient : Env :=
  { hasClient := false, gen := fun _ _ _ => .otherError "unused",
    jitter := fun _ => 0, fmtWait := fun _ => "0.00",
    preprocessTabular := fun _ => "T", preprocessTimeseries := fun _ => "TS",
    render := fun _ => "PNG" }

/-- A client whose (successful) responses have an empty candidate list:
the unguarded `response.candidates[0]` at `utils.py` line 460 raises
`IndexError`. -/
def c2envEmptyCand : Env :=
  { hasClient := true, gen := fun _ _ _ => .response ⟨some "hello", []⟩,
    jitter := fun _ => 0, fmtWait := fun _ => "0.00",
    preprocessTabular := fun _ => "T", preprocessTimeseries := fun _ => "TS",
    render := fun _ => "PNG" }

/-- A client that always answers with one candidate of unparseable prose. -/
def c2envGood : Env :=
  { hasClient := true,
    gen := fun _ _ _ => .response
      ⟨some "no json here", [⟨some ⟨"model", [.text "no json here"]⟩⟩]⟩,
    jitter := fun _ => 0, fmtWait := fun _ => "0.00",
    preprocessTabular := fun _ => "T", preprocessTimeseries := fun _ => "TS",
    render := fun _ => "PNG" }

/-- A model stub that always requests a tool call but whose `.text`
carries a JSON object with no `triage_urgency` key: the loop exhausts its
budget, and the post-budget salvage accepts the key-less dict. -/
def c3env : Env :=
  { hasClient := true,
    gen := fun _ _ _ => .response
      ⟨some "\x7b\"foo\": 1\x7d", [⟨some ⟨"model", [.functionCall ⟨"noop", []⟩]⟩⟩]⟩,
    jitter := fun _ => 0, fmtWait := fun _ => "0.00",
    preprocessTabular := fun _ => "T", preprocessTimeseries := fun _ => "TS",
    render := fun _ => "PNG" }

def c3out : RunResult × RunStats :=
  (run_triage_agent c3env "n" none none none none none).toOption.getD default

/-- A model stub that immediately answers with a well-formed report. -/
def c3goodEnv : Env :=
  { hasClient := true,
    gen := fun _ _ _ => .response
      ⟨some "\x7b\"triage_urgency\": \"High\"\x7d",
       [⟨some ⟨"model", [.text "\x7b\"triage_urgency\": \"High\"\x7d"]⟩⟩]⟩,
    jitter := fun _ => 0, fmtWait := fun _ => "0.00",
    preprocessTabular := fun _ => "T", preprocessTimeseries := fun _ => "TS",
    render := fun _ => "PNG" }

def c3g : RunResult × RunStats :=
  (run_triage_agent c3goodEnv "n" none none none none none).toOption.getD default

/-- A client whose every call raises a transient (500/server) API error. -/
def c4env : Env :=
  { hasClient := true,
    gen := fun _ _ _ => .apiError "ServerError" "500 internal server error",
    jitter := fun _ => 0, fmtWait := fun _ => "1.00",
    preprocessTabular := fun _ => "T", preprocessTimeseries := fun _ => "TS",
    render := fun _ => "PNG" }

def c4st0 : LoopState := ⟨[], [], [], false, false, none, 0, [], 0⟩

/-- A client whose every call raises a non-transient API error. -/
def c4envBad : Env :=
  { hasClient := true,
    gen := fun _ _ _ => .apiError "ValueError" "bad input",
    jitter := fun _ => 0, fmtWait := fun _ => "1.00",
    preprocessTabular := fun _ => "T", preprocessTimeseries := fun _ => "TS",
    render := fun _ => "PNG" }

/-! ### Theorems -/

example : jsonParse "\x7b\"a\": 1, \"b\": [true, null]\x7d" =
    some (.obj [("a", .num 1), ("b", .arr [.bool true, .null])]) := by rfl

example : jsonParse " \x7b \"k\" : -2.5e1 \x7d " =
    some (.obj [("k", .num (-25))]) := by rfl

example : jsonParse "\x7b\"a\": 1" = none := by rfl

example : jsonParse "[1, 2" = none := by rfl

example : jsonParse "\x7b\x7d" = some (.obj []) := by rfl

theorem ratDivNat_eq (q : ℚ) (n : ℕ) : ratDivNat q n = q / n := by
  unfold ratDivNat
  rw [Rat.mkRat_eq_div]
  push_cast
  rw [div_mul_eq_div_div]
  norm_num [Rat.num_div_den]

theorem ratMulNat_eq (q : ℚ) (n : ℕ) : ratMulNat q n = q * n := by
  unfold ratMulNat
  rw [Rat.mkRat_eq_div]
  push_cast
  rw [mul_comm (q.num : ℚ) (n : ℚ), mul_div_assoc]
  norm_num [Rat.num_div_den, mul_comm]

theorem ratAdd_eq (a b : ℚ) : ratAdd a b = a + b := by
  unfold ratAdd
  rw [Rat.mkRat_eq_div]
  push_cast
  rw [add_div]
  congr 1
  · rw [mul_comm (a.den : ℚ) (b.den : ℚ), ← div_div]
    norm_num [Rat.num_div_den]
  · rw [← div_div]
    norm_num [Rat.num_div_den]

example : _repair_json "\x7b\"a\": 1" = some "\x7b\x7d" := by rfl

example : _repair_json "\x7b\"a\": \x7b\"b\": 1" = none := by rfl

example : _repair_json_aggressive "\x7b\"a\": \x7b\"b\": 1" = none := by rfl

theorem tryParseReport_good_hasKey {j : String} {l : JObj}
    (h : tryParseReport j = .good l) : ohasKey l "triage_urgency" = true := by
  unfold tryParseReport at h
  split at h
  · split at h
    · injection h with h'
      subst h'
      assumption
    · cases h
  · cases h
  · cases h

/-! ## Claims -/

/-- C10: for every input string, each of `_repair_json` and
`_repair_json_aggressive` returns either `None` or a string that parses as
valid JSON (each validates its candidate with a JSON parse before
returning); an empty/whitespace-only input, or an input containing no
opening-brace character, yields `None` from both. -/
theorem C10_repair_validated (s : String) :
    (∀ r, _repair_json s = some r → (jsonParse r).isSome = true) ∧
    (∀ r, _repair_json_aggressive s = some r → (jsonParse r).isSome = true) ∧
    (pyStrip s = "" → _repair_json s = none ∧ _repair_json_aggressive s = none) ∧
    (pyFindChar s lbraceChar = none →
      _repair_json s = none ∧ _repair_json_aggressive s = none) := by
  refine ⟨?_, ?_, ?_, ?_⟩
  · intro r h
    unfold _repair_json at h
    split at h
    · cases h
    · split at h
      · cases h
      · dsimp only at h
        split at h
        · injection h with h'
          subst h'
          assumption
        · cases h
  · intro r h
    unfold _repair_json_aggressive at h
    split at h
    · cases h
    · split at h
      · cases h
      · split at h
        · split at h
          · injection h with h'
            subst h'
            assumption
          · cases h
        · cases h
  · intro hs
    constructor
    · unfold _repair_json
      rw [if_pos (Or.inr hs)]
    · unfold _repair_json_aggressive
      rw [if_pos (Or.inr hs)]
  · intro hf
    constructor
    · unfold _repair_json
      split
      · rfl
      · rw [hf]
    · unfold _repair_json_aggressive
      split
      · rfl
      · rw [hf]

/-- C10 witness: concrete instances of the hypothesis-bearing clauses:
a whitespace-only input and a brace-free input give `None` from both
repair functions, and a successfully repaired string parses. -/
theorem C10_repair_validated_witness :
    (_repair_json "  " = none ∧ _repair_json_aggressive "  " = none) ∧
    (_repair_json "no json here" = none ∧ _repair_json_aggressive "no json here" = none) ∧
    (jsonParse "\x7b\x7d").isSome = true :=
  ⟨(C10_repair_validated "  ").2.2.1 (by rfl),
   (C10_repair_validated "no json here").2.2.2 (by rfl),
   (C10_repair_validated "\x7b\"a\": 1").1 "\x7b\x7d" (by rfl)⟩

/-- C6 (claim falsified by the code, and the code contradicts its own
"Missing closing braces - try to add them" intent): deleting the two
trailing closing braces from the valid document `{"a": {"b": 1}}` (braces
written via `\x7b`/`\x7d`) yields a text on which the whole repair cascade
fails: `_repair_json` truncates everything after the first brace
(`end_idx` stays at `start_idx` when the depth never returns to zero),
producing the unparseable `{}}`, and `_repair_json_aggressive` finds no
odd-quote line; both return `None`. Appending the two deleted braces
would have restored a parseable document. -/
theorem C6_trailing_deletion_fails :
    (jsonParse "\x7b\"a\": \x7b\"b\": 1\x7d\x7d").isSome = true ∧
    (jsonParse ("\x7b\"a\": \x7b\"b\": 1" ++ "\x7d\x7d")).isSome = true ∧
    repairCandidate "\x7b\"a\": \x7b\"b\": 1" 0 = "\x7b\x7d\x7d" ∧
    _repair_json "\x7b\"a\": \x7b\"b\": 1" = none ∧
    _repair_json_aggressive "\x7b\"a\": \x7b\"b\": 1" = none ∧
    repairCascade "\x7b\"a\": \x7b\"b\": 1" = none ∧
    (jsonParse "[1, 2]").isSome = true ∧
    repairCascade "[1, 2" = none :=
  ⟨rfl, rfl, rfl, rfl, rfl, rfl, rfl, rfl⟩

/-- C8 counterexample: the claim says the lactate term is
`floor(lactateLevel * 3)`, but Python `int()` truncates toward zero. At
`lactate_level = -1/2` (all other inputs `0`) the code returns
`int(-1.5) = -1` while the claimed floor formula gives `-2`. -/
theorem C8_counterexample :
    (calculate_sepsis_risk 0 0 (mkRat (-1) 2) 0).risk_score = -1 ∧
    ⌊(0 : ℚ) / 10⌋ + ⌊(0 : ℚ) / 5⌋ + ⌊(mkRat (-1) 2 : ℚ) * 3⌋ = -2 ∧
    ((-1 : ℤ) ≠ -2) := by
  refine ⟨by decide, ?_, by decide⟩
  have h1 : (mkRat (-1) 2 : ℚ) = -1 / 2 := by
    rw [Rat.mkRat_eq_div]
    norm_num
  have h3 : ⌊((-3 : ℚ) / 2)⌋ = -2 := by
    rw [Int.floor_eq_iff]
    norm_num
  rw [h1, show (-1 : ℚ) / 2 * 3 = -3 / 2 by ring,
    show ((0 : ℚ) / 10) = 0 by norm_num, show ((0 : ℚ) / 5) = 0 by norm_num,
    Int.floor_zero, h3]
  norm_num

/-- C8 amended: `calculate_sepsis_risk` is a pure deterministic function
with `score_category = "High Risk"` iff `risk_score ≥ 20`, and for every
non-negative `lactate_level` (so in particular on the physical domain)
`risk_score = ⌊heartRate/10⌋ + ⌊respiratoryRate/5⌋ + ⌊lactateLevel*3⌋`;
for negative lactate the last term is truncated toward zero instead of
floored. -/
theorem C8_amended (heart_rate blood_pressure lactate_level respiratory_rate : ℚ) :
    ((calculate_sepsis_risk heart_rate blood_pressure lactate_level respiratory_rate).score_category
        = "High Risk" ↔
      20 ≤ (calculate_sepsis_risk heart_rate blood_pressure lactate_level respiratory_rate).risk_score) ∧
    (0 ≤ lactate_level →
      (calculate_sepsis_risk heart_rate blood_pressure lactate_level respiratory_rate).risk_score
        = ⌊heart_rate / 10⌋ + ⌊respiratory_rate / 5⌋ + ⌊lactate_level * 3⌋) := by
  constructor
  · unfold calculate_sepsis_risk
    dsimp only
    split
    · simp_all
    · simp_all
  · intro hl
    unfold calculate_sepsis_risk pyInt
    dsimp only
    rw [ratDivNat_eq, ratDivNat_eq, ratMulNat_eq]
    rw [if_pos (by positivity)]
    norm_num

/-- C8 witness: the amended theorem applied at the spec's two examples;
`(110, 90, 4.8, 26)` gives `risk_score = 30`, "High Risk", and
`(72, 118, 1.0, 14)` gives `12`, "Low Risk". -/
theorem C8_amended_witness :
    ((0 : ℚ) ≤ mkRat 24 5 ∧
      (calculate_sepsis_risk 110 90 (mkRat 24 5) 26).risk_score =
        ⌊(110 : ℚ) / 10⌋ + ⌊(26 : ℚ) / 5⌋ + ⌊(mkRat 24 5 : ℚ) * 3⌋) ∧
    (calculate_sepsis_risk 110 90 (mkRat 24 5) 26).risk_score = 30 ∧
    (calculate_sepsis_risk 110 90 (mkRat 24 5) 26).score_category = "High Risk" ∧
    (calculate_sepsis_risk 72 118 1 14).risk_score = 12 ∧
    (calculate_sepsis_risk 72 118 1 14).score_category = "Low Risk" :=
  ⟨⟨by decide, (C8_amended 110 90 (mkRat 24 5) 26).2 (by decide)⟩,
   by decide, by decide, by decide, by decide⟩

/-! ### Dictionary lemmas for the merge claims -/

theorem oset_lookup_self (l : JObj) (k : String) (v : Json) :
    olookup (oset l k v) k = some v := by
  induction l with
  | nil => simp [oset, olookup]
  | cons a rest ih =>
    by_cases hk : a.1 = k
    · simp [oset, hk, olookup]
    · simp [oset, hk, olookup, ih]

theorem oset_lookup_ne (l : JObj) (k k' : String) (v : Json) (h : k' ≠ k) :
    olookup (oset l k v) k' = olookup l k' := by
  have hkk : ¬ k = k' := fun he => h he.symm
  induction l with
  | nil => simp [oset, olookup, hkk]
  | cons a rest ih =>
    obtain ⟨ak, av⟩ := a
    by_cases hk : ak = k
    · have ha : ¬ ak = k' := by
        rw [hk]
        exact hkk
      simp [oset, hk, olookup, ha, hkk]
    · by_cases hk' : ak = k'
      · simp [oset, hk, olookup, hk', h]
      · simp [oset, hk, olookup, hk', ih]

theorem oset_self (l : JObj) (k : String) (v : Json) (h : olookup l k = some v) :
    oset l k v = l := by
  induction l with
  | nil => simp [olookup] at h
  | cons a rest ih =>
    obtain ⟨ak, av⟩ := a
    by_cases hk : ak = k
    · unfold olookup at h
      rw [if_pos hk] at h
      injection h with h'
      subst h'
      simp [oset, hk]
    · unfold olookup at h
      rw [if_neg hk] at h
      simp [oset, hk, ih h]

theorem olookup_mem (l : JObj) (k : String) (v : Json) (h : olookup l k = some v) :
    (k, v) ∈ l := by
  induction l with
  | nil => simp [olookup] at h
  | cons a rest ih =>
    obtain ⟨ak, av⟩ := a
    by_cases hk : ak = k
    · unfold olookup at h
      rw [if_pos hk] at h
      injection h with h'
      subst hk
      subst h'
      exact List.mem_cons_self _ _
    · unfold olookup at h
      rw [if_neg hk] at h
      exact List.mem_cons_of_mem _ (ih h)

theorem lookup_self_of_nodup (l : JObj) (k : String) (v : Json)
    (hnd : (l.map Prod.fst).Nodup) (hm : (k, v) ∈ l) : olookup l k = some v := by
  induction l with
  | nil => cases hm
  | cons a rest ih =>
    rcases List.mem_cons.mp hm with heq | htl
    · subst heq
      simp [olookup]
    · have hnd' := hnd
      rw [List.map_cons] at hnd'
      have hk : a.1 ≠ k := by
        intro he
        have hmem : a.1 ∈ rest.map Prod.fst := by
          rw [he]
          exact List.mem_map.mpr ⟨(k, v), htl, rfl⟩
        exact (List.nodup_cons.mp hnd').1 hmem
      unfold olookup
      rw [if_neg hk]
      exact ih (List.nodup_cons.mp hnd').2 htl

theorem oupdate_nil (a : JObj) : oupdate a [] = a := rfl

theorem oupdate_cons (a : JObj) (k : String) (v : Json) (rest : JObj) :
    oupdate a ((k, v) :: rest) = oupdate (oset a k v) rest := rfl

theorem oupdate_lookup_notin (a b : JObj) (k : String) (h : k ∉ b.map Prod.fst) :
    olookup (oupdate a b) k = olookup a k := by
  induction b generalizing a with
  | nil => rfl
  | cons p rest ih =>
    have hk : k ≠ p.1 := by
      intro he
      exact h (by simp [he])
    rw [show oupdate a (p :: rest) = oupdate (oset a p.1 p.2) rest from rfl]
    rw [ih _ (by intro hm; exact h (List.mem_cons_of_mem _ hm))]
    exact oset_lookup_ne a p.1 k p.2 hk

theorem oupdate_lookup_mem (a b : JObj) (k : String) (v : Json)
    (hnd : (b.map Prod.fst).Nodup) (hm : (k, v) ∈ b) :
    olookup (oupdate a b) k = some v := by
  induction b generalizing a with
  | nil => cases hm
  | cons p rest ih =>
    rcases List.mem_cons.mp hm with heq | htl
    · subst heq
      rw [show oupdate a ((k, v) :: rest) = oupdate (oset a k v) rest from rfl]
      rw [oupdate_lookup_notin _ _ _ (List.nodup_cons.mp hnd).1]
      exact oset_lookup_self a k v
    · rw [show oupdate a (p :: rest) = oupdate (oset a p.1 p.2) rest from rfl]
      exact ih _ (List.nodup_cons.mp hnd).2 htl

theorem oupdate_self (a b : JObj) (h : ∀ p ∈ b, olookup a p.1 = some p.2) :
    oupdate a b = a := by
  induction b with
  | nil => rfl
  | cons p rest ih =>
    rw [show oupdate a (p :: rest) = oupdate (oset a p.1 p.2) rest from rfl]
    rw [oset_self a p.1 p.2 (h p (List.mem_cons_self p rest))]
    exact ih (fun q hq => h q (List.mem_cons_of_mem p hq))

theorem ohasKey_oset_of (a : JObj) (k k' : String) (v : Json) (h : ohasKey a k = true) :
    ohasKey (oset a k' v) k = true := by
  by_cases he : k = k'
  · subst he
    simp [ohasKey, oset_lookup_self]
  · simpa [ohasKey, oset_lookup_ne a k' k v he] using h

theorem ohasKey_oupdate_left (a b : JObj) (k : String) (h : ohasKey a k = true) :
    ohasKey (oupdate a b) k = true := by
  induction b generalizing a with
  | nil => exact h
  | cons p rest ih =>
    rw [show oupdate a (p :: rest) = oupdate (oset a p.1 p.2) rest from rfl]
    exact ih _ (ohasKey_oset_of a k p.1 p.2 h)

theorem filter_keys_nodup (b : JObj) (p : String × Json → Bool)
    (hnd : (b.map Prod.fst).Nodup) : ((b.filter p).map Prod.fst).Nodup :=
  List.Nodup.sublist (List.Sublist.map Prod.fst (List.filter_sublist b)) hnd

theorem coerceTvd_obj (n : JObj) : coerceTvd (some (.obj n)) = .obj n := by
  show (if (Json.obj n).truthy = true then Json.obj n else Json.obj []) = Json.obj n
  by_cases hn : n.isEmpty
  · rw [if_neg (by simp [Json.truthy, hn])]
    rw [List.isEmpty_iff.mp hn]
  · rw [if_pos (by simp [Json.truthy, hn])]

/-- C7 counterexample: the merge is plain `dict.update` semantics, not the
claimed fill-only policy. An existing truthy top-level field
(`evidence_summary = "A"`) is overwritten by the fallback value `"B"`, and
an existing `tool_verification_data` sub-key (`sepsis_risk = 1`) is
overwritten by the fallback sub-value `2` (the spread is
`{**existing, **new}`, fallback last). -/
theorem C7_counterexample :
    mergeFallback (some [("evidence_summary", Json.str "A")])
        [("evidence_summary", Json.str "B")]
      = .ok (some [("evidence_summary", Json.str "B")]) ∧
    (Json.str "A").truthy = true ∧
    Json.str "A" ≠ Json.str "B" ∧
    mergeFallback (some [(tvdKey, Json.obj [("sepsis_risk", Json.num 1)])])
        [(tvdKey, Json.obj [("sepsis_risk", Json.num 2)])]
      = .ok (some [(tvdKey, Json.obj [("sepsis_risk", Json.num 2)])]) := by
  refine ⟨rfl, rfl, ?_, rfl⟩
  intro h
  injection h with h'
  exact absurd h' (by decide)

/-- Core of the amended C7, for an always-dict current report. -/
theorem C7_merge_aux (rep : JObj) (fallback : JObj) (res : Option JObj)
    (hfb : ¬ fallback.isEmpty = true)
    (hnd : (fallback.map Prod.fst).Nodup)
    (htvd : ∀ v, olookup fallback tvdKey = some v →
      ∃ n, v = Json.obj n ∧ (n.map Prod.fst).Nodup)
    (h : mergeFallback (some rep) fallback = .ok res) :
    (∀ rep2, res = some rep2 → ∀ p ∈ fallback, p.1 ≠ tvdKey →
      olookup rep2 p.1 = some p.2) ∧
    mergeFallback res fallback = .ok res := by
  unfold mergeFallback at h
  rw [if_neg hfb] at h
  dsimp only at h
  by_cases hcond : (ohasKey fallback tvdKey = true ∧ ohasKey rep tvdKey = true)
  · rw [if_pos hcond] at h
    obtain ⟨v, hv⟩ := Option.isSome_iff_exists.mp hcond.1
    obtain ⟨n, hvn, hnN⟩ := htvd v hv
    subst hvn
    obtain ⟨w, hw⟩ := Option.isSome_iff_exists.mp hcond.2
    rw [hv, hw, coerceTvd_obj] at h
    rcases hw2 : coerceTvd (some w) with _ | b | q | s2 | l2 | e | _ | ng <;>
        rw [hw2] at h <;> dsimp only at h
    · exact absurd h (by simp)
    · exact absurd h (by simp)
    · exact absurd h (by simp)
    · exact absurd h (by simp)
    · exact absurd h (by simp)
    · injection h with h'
      subst h'
      have hndR : ((fallback.filter (fun kv => kv.1 ≠ tvdKey)).map Prod.fst).Nodup :=
        filter_keys_nodup fallback _ hnd
      refine ⟨?_, ?_⟩
      · intro rep2 hr p hp hne
        injection hr with hr'
        subst hr'
        exact oupdate_lookup_mem _ _ p.1 p.2 hndR
          (List.mem_filter.mpr ⟨hp, by simpa using hne⟩)
      · unfold mergeFallback
        rw [if_neg hfb]
        dsimp only
        have hset : olookup (oset rep tvdKey (Json.obj (oupdate e n))) tvdKey
            = some (Json.obj (oupdate e n)) := oset_lookup_self rep tvdKey _
        have hnotin : tvdKey ∉ (fallback.filter (fun kv => kv.1 ≠ tvdKey)).map Prod.fst := by
          intro hm
          obtain ⟨p, hpf, hpk⟩ := List.mem_map.mp hm
          have := (List.mem_filter.mp hpf).2
          simp [hpk] at this
        have hlook : olookup (oupdate (oset rep tvdKey (Json.obj (oupdate e n)))
            (fallback.filter (fun kv => kv.1 ≠ tvdKey))) tvdKey
            = some (Json.obj (oupdate e n)) := by
          rw [oupdate_lookup_notin _ _ _ hnotin]
          exact hset
        rw [if_pos ⟨hcond.1, by unfold ohasKey; rw [hlook]; rfl⟩]
        rw [hv, hlook, coerceTvd_obj, coerceTvd_obj]
        dsimp only
        have hupd : oupdate (oupdate e n) n = oupdate e n :=
          oupdate_self _ _ (fun p hp => oupdate_lookup_mem e n p.1 p.2 hnN hp)
        rw [hupd]
        rw [oset_self _ _ _ hlook]
        rw [oupdate_self _ _ (fun p hp =>
          oupdate_lookup_mem _ _ p.1 p.2 hndR hp)]
    · exact absurd h (by simp)
    · exact absurd h (by simp)
  · rw [if_neg hcond] at h
    injection h with h'
    subst h'
    refine ⟨?_, ?_⟩
    · intro rep2 hr p hp hne
      injection hr with hr'
      subst hr'
      exact oupdate_lookup_mem _ _ p.1 p.2 hnd hp
    · unfold mergeFallback
      rw [if_neg hfb]
      dsimp only
      by_cases hft : ohasKey fallback tvdKey = true
      · obtain ⟨v, hv⟩ := Option.isSome_iff_exists.mp hft
        obtain ⟨n, hvn, hnN⟩ := htvd v hv
        subst hvn
        have hlook : olookup (oupdate rep fallback) tvdKey = some (Json.obj n) :=
          oupdate_lookup_mem _ _ _ _ hnd (olookup_mem _ _ _ hv)
        rw [if_pos ⟨hft, by unfold ohasKey; rw [hlook]; rfl⟩]
        rw [hv, hlook, coerceTvd_obj]
        dsimp only
        have hupd : oupdate n n = n :=
          oupdate_self _ _ (fun p hp => lookup_self_of_nodup n p.1 p.2 hnN hp)
        rw [hupd]
        rw [oset_self _ _ _ hlook]
        rw [oupdate_self _ _ (fun p hp =>
          oupdate_lookup_mem _ _ p.1 p.2 hnd (List.mem_of_mem_filter hp))]
      · rw [if_neg (by intro hc; exact hft hc.1)]
        rw [oupdate_self _ _ (fun p hp => oupdate_lookup_mem _ _ p.1 p.2 hnd hp)]

/-- C7 amended: the fallback merge uses overwrite semantics — every
non-`tool_verification_data` fallback field ends up in the merged report
with the fallback value (even over an existing truthy value), and
`tool_verification_data` is merged with fallback sub-keys winning; merging
the identical fallback a second time changes nothing (idempotence), given
Python-dict key uniqueness and a mapping-shaped fallback
`tool_verification_data`. -/
theorem C7_amended (report0 : Option JObj) (fallback : JObj) (res : Option JObj)
    (hnd : (fallback.map Prod.fst).Nodup)
    (htvd : ∀ v, olookup fallback tvdKey = some v →
      ∃ n, v = Json.obj n ∧ (n.map Prod.fst).Nodup)
    (h : mergeFallback report0 fallback = .ok res) :
    (∀ rep2, res = some rep2 → ∀ p ∈ fallback, p.1 ≠ tvdKey →
      olookup rep2 p.1 = some p.2) ∧
    mergeFallback res fallback = .ok res := by
  by_cases hfb : fallback.isEmpty
  · unfold mergeFallback at h
    rw [if_pos hfb] at h
    injection h with h'
    subst h'
    refine ⟨?_, ?_⟩
    · intro rep2 hr p hp
      rw [List.isEmpty_iff.mp hfb] at hp
      cases hp
    · unfold mergeFallback
      rw [if_pos hfb]
  · have hred : mergeFallback report0 fallback
        = mergeFallback (some (report0.getD [])) fallback := by
      cases report0
      · unfold mergeFallback
        rw [if_neg hfb, if_neg hfb]
        rfl
      · rfl
    rw [hred] at h
    exact C7_merge_aux (report0.getD []) fallback res hfb hnd htvd h

/-- C7 witness: the amended theorem applied at a concrete merge — an
incomplete report merged with a fallback carrying a diagnosis and a
sepsis-risk block: the fallback field lands in the report, and re-merging
the identical fallback returns the same report. -/
theorem C7_amended_witness :
    (∀ rep,
        (some [("triage_urgency", Json.str "RED"),
               ("differential_diagnosis", Json.arr [Json.str "Sepsis"]),
               (tvdKey, Json.obj [("sepsis_risk", Json.num 25)])] : Option JObj) = some rep →
        ∀ p ∈ ([("differential_diagnosis", Json.arr [Json.str "Sepsis"]),
                (tvdKey, Json.obj [("sepsis_risk", Json.num 25)])] : JObj),
          p.1 ≠ tvdKey → olookup rep p.1 = some p.2) ∧
    mergeFallback
      (some [("triage_urgency", Json.str "RED"),
             ("differential_diagnosis", Json.arr [Json.str "Sepsis"]),
             (tvdKey, Json.obj [("sepsis_risk", Json.num 25)])])
      [("differential_diagnosis", Json.arr [Json.str "Sepsis"]),
       (tvdKey, Json.obj [("sepsis_risk", Json.num 25)])]
      = .ok (some [("triage_urgency", Json.str "RED"),
                   ("differential_diagnosis", Json.arr [Json.str "Sepsis"]),
                   (tvdKey, Json.obj [("sepsis_risk", Json.num 25)])]) :=
  C7_amended (some [("triage_urgency", Json.str "RED")])
    [("differential_diagnosis", Json.arr [Json.str "Sepsis"]),
     (tvdKey, Json.obj [("sepsis_risk", Json.num 25)])]
    (some [("triage_urgency", Json.str "RED"),
           ("differential_diagnosis", Json.arr [Json.str "Sepsis"]),
           (tvdKey, Json.obj [("sepsis_risk", Json.num 25)])])
    (by simp [tvdKey])
    (by
      intro v hv
      refine ⟨[("sepsis_risk", Json.num 25)], ?_, by simp⟩
      simp [olookup, tvdKey] at hv
      exact hv.symm)
    (by rfl)

/-- The result `Part` built by `execute_function_call` does not depend on
the incoming log list (logging and result construction are separate). -/
theorem execute_fc_part_log_indep
    (tools : List (String × (JObj → Except String Json)))
    (n : String) (a : JObj) (logs : List String) :
    (execute_function_call tools n a logs).1 = (execute_function_call tools n a []).1 := by
  unfold execute_function_call
  split
  · rfl
  · split <;> rfl

/-- C5: `execute_function_call` never raises (it is a total function into
result parts): an unknown name yields the error payload naming the
function plus an `[ERROR]` log entry; a registered tool that throws yields
the error payload containing the cause plus an `[ERROR]` log entry; and
the per-turn loop executes every requested call independently, collecting
result parts in request order (each part equal to that call executed in
isolation). -/
theorem C5_tool_execution
    (tools : List (String × (JObj → Except String Json)))
    (func_name : String) (func_args : JObj) (tool_logs : List String) :
    (tools.find? (fun t => t.1 = func_name) = none →
      execute_function_call tools func_name func_args tool_logs =
        (.text (jsonDumps (.obj [("error",
            .str ("Function " ++ func_name ++ " not found in TOOL_CONFIG"))])),
         tool_logs ++ ["[ERROR] " ++ ("Function " ++ func_name ++ " not found in TOOL_CONFIG")])) ∧
    (∀ t cause, tools.find? (fun t => t.1 = func_name) = some t →
      t.2 func_args = .error cause →
      execute_function_call tools func_name func_args tool_logs =
        (.text (jsonDumps (.obj [("error",
            .str ("Execution of " ++ func_name ++ " failed: " ++ cause))])),
         tool_logs ++ ["[ERROR] " ++ ("Execution of " ++ func_name ++ " failed: " ++ cause)])) ∧
    (∀ calls logs,
      (executeCalls tools calls logs).1 =
        calls.map (fun c => (execute_function_call tools c.name c.args []).1)) := by
  refine ⟨?_, ?_, ?_⟩
  · intro h
    unfold execute_function_call
    rw [h]
  · intro t cause hf hc
    unfold execute_function_call
    rw [hf]
    dsimp only
    rw [hc]
  · intro calls
    induction calls with
    | nil => intro logs; rfl
    | cons c rest ih =>
      intro logs
      unfold executeCalls
      dsimp only
      rw [List.map_cons, execute_fc_part_log_indep, ih]

/-- C5 witness: the theorem applied to the concrete registry
`TOOL_CONFIG`: an unknown tool name, a registered tool raising
`TypeError` on bad arguments, and a two-call turn executed in order. -/
theorem C5_tool_execution_witness :
    (execute_function_call (TOOL_CONFIG c5render) "no_such_tool" [] [] =
      (.text (jsonDumps (.obj [("error",
          .str ("Function " ++ "no_such_tool" ++ " not found in TOOL_CONFIG"))])),
       [] ++ ["[ERROR] " ++ ("Function " ++ "no_such_tool" ++ " not found in TOOL_CONFIG")])) ∧
    (execute_function_call (TOOL_CONFIG c5render) "calculate_sepsis_risk" [] [] =
      (.text (jsonDumps (.obj [("error",
          .str ("Execution of " ++ "calculate_sepsis_risk" ++ " failed: " ++
            "TypeError: calculate_sepsis_risk() argument binding failed"))])),
       [] ++ ["[ERROR] " ++ ("Execution of " ++ "calculate_sepsis_risk" ++ " failed: " ++
            "TypeError: calculate_sepsis_risk() argument binding failed")])) ∧
    (executeCalls (TOOL_CONFIG c5render)
        [⟨"no_such_tool", []⟩, ⟨"calculate_sepsis_risk", []⟩] ["prior"]).1 =
      [(execute_function_call (TOOL_CONFIG c5render) "no_such_tool" [] []).1,
       (execute_function_call (TOOL_CONFIG c5render) "calculate_sepsis_risk" [] []).1] :=
  ⟨(C5_tool_execution (TOOL_CONFIG c5render) "no_such_tool" [] []).1 (by rfl),
   (C5_tool_execution (TOOL_CONFIG c5render) "calculate_sepsis_risk" [] []).2.1
     ("calculate_sepsis_risk", sepsisToolFn)
     "TypeError: calculate_sepsis_risk() argument binding failed" (by rfl) (by rfl),
   (C5_tool_execution (TOOL_CONFIG c5render) "" [] []).2.2
     [⟨"no_such_tool", []⟩, ⟨"calculate_sepsis_risk", []⟩] ["prior"]⟩

/-- C9: in `build_patient_contents`, the image part (present exactly when
both base64 data and MIME type are truthy) is the head, every other part
is text, and the text parts appear in fixed order: patient notes, the
image-analysis text when provided, the labs summary (sentinel when labs
are absent or empty), the vitals summary (sentinel likewise), and the
instruction block last. -/
theorem C9_build_patient_contents (env : Env) (notes : String)
    (img mime : Option String) (labs : Option JObj)
    (vitals : Option (List VitalsEntry)) (ana : Option String) :
    let ps := build_patient_contents env notes img mime labs vitals ana
    let off : Nat := if truthyS img = true ∧ truthyS mime = true then 1 else 0
    let anaP : Bool := match ana with
      | some t => t ≠ ""
      | none => false
    let aoff : Nat := if anaP = true then 1 else 0
    let labsPart : GPart := match labs with
      | some l => if ¬ l.isEmpty then GPart.text (env.preprocessTabular l)
                  else .text sentinelLabs
      | none => .text sentinelLabs
    let vitalsPart : GPart := match vitals with
      | some vl => if ¬ vl.isEmpty then GPart.text (env.preprocessTimeseries vl)
                   else .text sentinelVitals
      | none => .text sentinelVitals
    ps.length = off + 1 + aoff + 3 ∧
    ((truthyS img = true ∧ truthyS mime = true) →
      ps.head? = some (.inlineData (img.getD "") (mime.getD ""))) ∧
    (∀ p ∈ ps.tail, ∃ s, p = GPart.text s) ∧
    (¬ (truthyS img = true ∧ truthyS mime = true) →
      ∀ p ∈ ps, ∃ s, p = GPart.text s) ∧
    ps[off]? = some (.text ("Patient Notes: " ++ notes)) ∧
    (anaP = true →
      ps[off + 1]? = some (.text ("Image Analysis (from Gemini): " ++ ana.getD ""))) ∧
    ps[off + aoff + 1]? = some labsPart ∧
    ps[off + aoff + 2]? = some vitalsPart ∧
    ps.getLast? = some (.text (buildInstructionText labs vitals ana)) := by
  intro ps off anaP aoff labsPart vitalsPart
  have hlabs : ∃ s, labsPart = GPart.text s := by
    simp only [labsPart]
    rcases labs with _ | l
    · exact ⟨_, rfl⟩
    · dsimp only
      split
      · exact ⟨_, rfl⟩
      · exact ⟨_, rfl⟩
  have hvit : ∃ s, vitalsPart = GPart.text s := by
    simp only [vitalsPart]
    rcases vitals with _ | vl
    · exact ⟨_, rfl⟩
    · dsimp only
      split
      · exact ⟨_, rfl⟩
      · exact ⟨_, rfl⟩
  by_cases hi : (truthyS img = true ∧ truthyS mime = true)
  · rcases ana with _ | t
    · have hps : ps = [GPart.inlineData (img.getD "") (mime.getD ""),
          .text ("Patient Notes: " ++ notes), labsPart, vitalsPart,
          .text (buildInstructionText labs vitals none)] := by
        simp only [ps, build_patient_contents, if_pos hi, labsPart, vitalsPart]
        rfl
      have hoff : off = 1 := if_pos hi
      have haoff : aoff = 0 := rfl
      refine ⟨?_, ?_, ?_, ?_, ?_, ?_, ?_, ?_, ?_⟩
      · rw [hps, hoff, haoff]; rfl
      · intro _; rw [hps]; rfl
      · intro p hp
        rw [hps] at hp
        simp only [List.tail_cons, List.mem_cons, List.not_mem_nil, or_false] at hp
        rcases hp with rfl | rfl | rfl | rfl <;> first
          | exact ⟨_, rfl⟩
          | exact hlabs
          | exact hvit
      · intro hni; exact absurd hi hni
      · rw [hps, hoff]; rfl
      · intro hb; exact absurd hb (by simp [anaP])
      · rw [hps, hoff, haoff]; rfl
      · rw [hps, hoff, haoff]; rfl
      · rw [hps]; rfl
    · by_cases ht : t = ""
      · have hps : ps = [GPart.inlineData (img.getD "") (mime.getD ""),
            .text ("Patient Notes: " ++ notes), labsPart, vitalsPart,
            .text (buildInstructionText labs vitals (some t))] := by
          simp only [ps, build_patient_contents, if_pos hi, if_neg (not_not_intro ht),
            labsPart, vitalsPart]
          rfl
        have hoff : off = 1 := if_pos hi
        have haoff : aoff = 0 := by simp [aoff, anaP, ht]
        refine ⟨?_, ?_, ?_, ?_, ?_, ?_, ?_, ?_, ?_⟩
        · rw [hps, hoff, haoff]; rfl
        · intro _; rw [hps]; rfl
        · intro p hp
          rw [hps] at hp
          simp only [List.tail_cons, List.mem_cons, List.not_mem_nil, or_false] at hp
          rcases hp with rfl | rfl | rfl | rfl <;> first
          | exact ⟨_, rfl⟩
          | exact hlabs
          | exact hvit
        · intro hni; exact absurd hi hni
        · rw [hps, hoff]; rfl
        · intro hb; exact absurd hb (by simp [anaP, ht])
        · rw [hps, hoff, haoff]; rfl
        · rw [hps, hoff, haoff]; rfl
        · rw [hps]; rfl
      · have hps : ps = [GPart.inlineData (img.getD "") (mime.getD ""),
            .text ("Patient Notes: " ++ notes),
            .text ("Image Analysis (from Gemini): " ++ t), labsPart, vitalsPart,
            .text (buildInstructionText labs vitals (some t))] := by
          simp only [ps, build_patient_contents, if_pos hi, if_pos ht,
            labsPart, vitalsPart]
          rfl
        have hoff : off = 1 := if_pos hi
        have haoff : aoff = 1 := by simp [aoff, anaP, ht]
        refine ⟨?_, ?_, ?_, ?_, ?_, ?_, ?_, ?_, ?_⟩
        · rw [hps, hoff, haoff]; rfl
        · intro _; rw [hps]; rfl
        · intro p hp
          rw [hps] at hp
          simp only [List.tail_cons, List.mem_cons, List.not_mem_nil, or_false] at hp
          rcases hp with rfl | rfl | rfl | rfl | rfl <;> first
          | exact ⟨_, rfl⟩
          | exact hlabs
          | exact hvit
        · intro hni; exact absurd hi hni
        · rw [hps, hoff]; rfl
        · intro _; rw [hps, hoff]; rfl
        · rw [hps, hoff, haoff]; rfl
        · rw [hps, hoff, haoff]; rfl
        · rw [hps]; rfl
  · rcases ana with _ | t
    · have hps : ps = [GPart.text ("Patient Notes: " ++ notes), labsPart, vitalsPart,
          .text (buildInstructionText labs vitals none)] := by
        simp only [ps, build_patient_contents, if_neg hi, labsPart, vitalsPart]
        rfl
      have hoff : off = 0 := if_neg hi
      have haoff : aoff = 0 := rfl
      refine ⟨?_, ?_, ?_, ?_, ?_, ?_, ?_, ?_, ?_⟩
      · rw [hps, hoff, haoff]; rfl
      · intro hc; exact absurd hc hi
      · intro p hp
        rw [hps] at hp
        simp only [List.tail_cons, List.mem_cons, List.not_mem_nil, or_false] at hp
        rcases hp with rfl | rfl | rfl <;> first
          | exact ⟨_, rfl⟩
          | exact hlabs
          | exact hvit
      · intro _ p hp
        rw [hps] at hp
        simp only [List.mem_cons, List.not_mem_nil, or_false] at hp
        rcases hp with rfl | rfl | rfl | rfl <;> first
          | exact ⟨_, rfl⟩
          | exact hlabs
          | exact hvit
      · rw [hps, hoff]; rfl
      · intro hb; exact absurd hb (by simp [anaP])
      · rw [hps, hoff, haoff]; rfl
      · rw [hps, hoff, haoff]; rfl
      · rw [hps]; rfl
    · by_cases ht : t = ""
      · have hps : ps = [GPart.text ("Patient Notes: " ++ notes), labsPart, vitalsPart,
            .text (buildInstructionText labs vitals (some t))] := by
          simp only [ps, build_patient_contents, if_neg hi, if_neg (not_not_intro ht),
            labsPart, vitalsPart]
          rfl
        have hoff : off = 0 := if_neg hi
        have haoff : aoff = 0 := by simp [aoff, anaP, ht]
        refine ⟨?_, ?_, ?_, ?_, ?_, ?_, ?_, ?_, ?_⟩
        · rw [hps, hoff, haoff]; rfl
        · intro hc; exact absurd hc hi
        · intro p hp
          rw [hps] at hp
          simp only [List.tail_cons, List.mem_cons, List.not_mem_nil, or_false] at hp
          rcases hp with rfl | rfl | rfl <;> first
          | exact ⟨_, rfl⟩
          | exact hlabs
          | exact hvit
        · intro _ p hp
          rw [hps] at hp
          simp only [List.mem_cons, List.not_mem_nil, or_false] at hp
          rcases hp with rfl | rfl | rfl | rfl <;> first
          | exact ⟨_, rfl⟩
          | exact hlabs
          | exact hvit
        · rw [hps, hoff]; rfl
        · intro hb; exact absurd hb (by simp [anaP, ht])
        · rw [hps, hoff, haoff]; rfl
        · rw [hps, hoff, haoff]; rfl
        · rw [hps]; rfl
      · have hps : ps = [GPart.text ("Patient Notes: " ++ notes),
            .text ("Image Analysis (from Gemini): " ++ t), labsPart, vitalsPart,
            .text (buildInstructionText labs vitals (some t))] := by
          simp only [ps, build_patient_contents, if_neg hi, if_pos ht,
            labsPart, vitalsPart]
          rfl
        have hoff : off = 0 := if_neg hi
        have haoff : aoff = 1 := by simp [aoff, anaP, ht]
        refine ⟨?_, ?_, ?_, ?_, ?_, ?_, ?_, ?_, ?_⟩
        · rw [hps, hoff, haoff]; rfl
        · intro hc; exact absurd hc hi
        · intro p hp
          rw [hps] at hp
          simp only [List.tail_cons, List.mem_cons, List.not_mem_nil, or_false] at hp
          rcases hp with rfl | rfl | rfl | rfl <;> first
          | exact ⟨_, rfl⟩
          | exact hlabs
          | exact hvit
        · intro _ p hp
          rw [hps] at hp
          simp only [List.mem_cons, List.not_mem_nil, or_false] at hp
          rcases hp with rfl | rfl | rfl | rfl | rfl <;> first
          | exact ⟨_, rfl⟩
          | exact hlabs
          | exact hvit
        · rw [hps, hoff]; rfl
        · intro _; rw [hps, hoff]; rfl
        · rw [hps, hoff, haoff]; rfl
        · rw [hps, hoff, haoff]; rfl
        · rw [hps]; rfl

/-- C9 witness: the theorem applied to a concrete call with an image, an
analysis text, and no labs/vitals: image first, then notes, analysis,
both sentinels, and the instruction block last. -/
theorem C9_build_patient_contents_witness :
    let ps := build_patient_contents c9env "fever" (some "IMGDATA") (some "image/png")
      none none (some "analysis")
    ps.head? = some (.inlineData "IMGDATA" "image/png") ∧
    ps[1]? = some (.text ("Patient Notes: " ++ "fever")) ∧
    ps[2]? = some (.text ("Image Analysis (from Gemini): " ++ "analysis")) ∧
    ps[3]? = some (.text sentinelLabs) ∧
    ps[4]? = some (.text sentinelVitals) ∧
    ps.getLast? = some (.text (buildInstructionText none none (some "analysis"))) := by
  intro ps
  have h := C9_build_patient_contents c9env "fever" (some "IMGDATA") (some "image/png")
    none none (some "analysis")
  exact ⟨h.2.1 ⟨rfl, rfl⟩, h.2.2.2.2.1, h.2.2.2.2.2.1 rfl,
    h.2.2.2.2.2.2.1, h.2.2.2.2.2.2.2.1, h.2.2.2.2.2.2.2.2⟩

/-! ### Properties of the retry loop, the turn step and the turn loop -/

/-- Any fatal retry outcome carries no report and appends exactly one
error to the incoming error list. -/
theorem retryGo_fatal_shape (env : Env) (cfg : GenConfig) :
    ∀ rem attempt st res st', retryGo env cfg rem attempt st = .fatal res st' →
      res.report = none ∧ ∃ m, res.errors = st.errors ++ [m] := by
  intro rem
  induction rem with
  | zero => intro attempt st res st' h; cases h
  | succ r ih =>
    intro attempt st res st' h
    unfold retryGo at h
    split at h
    · cases h
    · dsimp only at h
      split at h
      · have h2 := ih (attempt + 1) _ res st' h
        exact h2
      · injection h with h1 h2
        subst h1
        exact ⟨rfl, _, rfl⟩
    · injection h with h1 h2
      subst h1
      exact ⟨rfl, _, rfl⟩

/-- A successful retry outcome is a response the model client actually
produced for some call index and content list. -/
theorem retryGo_got_gen (env : Env) (cfg : GenConfig) :
    ∀ rem attempt st r st', retryGo env cfg rem attempt st = .got r st' →
      ∃ n c, env.gen n c cfg = .response r := by
  intro rem
  induction rem with
  | zero => intro attempt st r st' h; cases h
  | succ rr ih =>
    intro attempt st r st' h
    unfold retryGo at h
    split at h
    · injection h with h1 h2
      subst h1
      exact ⟨st.callIdx, st.contents, by assumption⟩
    · dsimp only at h
      split at h
      · have h2 := ih (attempt + 1) _ r st' h
        exact h2
      · cases h
    · cases h

/-- The retry loop never touches the turn counter. -/
theorem retryGo_turnsRun (env : Env) (cfg : GenConfig) :
    ∀ rem attempt st, ((retryGo env cfg rem attempt st).state).turnsRun = st.turnsRun := by
  intro rem
  induction rem with
  | zero => intro attempt st; rfl
  | succ r ih =>
    intro attempt st
    unfold retryGo
    split
    · rfl
    · dsimp only
      split
      · exact ih _ _
      · rfl
    · rfl

/-- Every report returned by the first extraction attempt contains
`triage_urgency`, and the error list is passed through unchanged. -/
theorem firstTryFn_some (turn : Nat) (logs1 errors : List String)
    (rawOpt : Option String) (res : RunResult)
    (h : firstTryFn turn logs1 errors rawOpt = some res) :
    ∃ l, res.report = some l ∧ ohasKey l "triage_urgency" = true ∧
      res.errors = errors := by
  unfold firstTryFn at h
  try dsimp only at h
  repeat' (split at h <;> try dsimp only at h)
  all_goals try exact Option.noConfusion h
  all_goals
    injection h with h1
  all_goals
    subst h1
  all_goals
    exact ⟨_, rfl, tryParseReport_good_hasKey (by assumption), rfl⟩

/-- Every report returned by the second extraction attempt contains
`triage_urgency`, and the error list is passed through unchanged. -/
theorem secondTryFn_some (turn : Nat) (logs1 errors : List String)
    (jc : String) (res : RunResult)
    (h : secondTryFn turn logs1 errors jc = some res) :
    ∃ l, res.report = some l ∧ ohasKey l "triage_urgency" = true ∧
      res.errors = errors := by
  unfold secondTryFn at h
  try dsimp only at h
  repeat' (split at h <;> try dsimp only at h)
  all_goals try exact Option.noConfusion h
  all_goals
    injection h with h1
  all_goals
    subst h1
  all_goals
    exact ⟨_, rfl, tryParseReport_good_hasKey (by assumption), rfl⟩

/-- Every report returned by the brace-window extraction attempt contains
`triage_urgency`, and the error list is passed through unchanged. -/
theorem thirdTryFn_some (turn : Nat) (logs1 errors : List String)
    (jc : String) (res : RunResult)
    (h : thirdTryFn turn logs1 errors jc = some res) :
    ∃ l, res.report = some l ∧ ohasKey l "triage_urgency" = true ∧
      res.errors = errors := by
  unfold thirdTryFn at h
  try dsimp only at h
  repeat' (split at h <;> try dsimp only at h)
  all_goals try exact Option.noConfusion h
  all_goals
    injection h with h1
  all_goals
    subst h1
  all_goals
    exact ⟨_, rfl, by assumption, rfl⟩

set_option maxHeartbeats 1600000 in
/-- Shape of a returning no-function-call step: either no report plus
exactly one appended error, or a report containing `triage_urgency` with
the error list untouched. -/
theorem noFnBranch_ret (turn : Nat) (cfg : GenConfig) (mc : Option Content)
    (resp : Response) (st : LoopState) (res : RunResult)
    (h : noFnBranch turn cfg mc resp st = .ret res) :
    (res.report = none ∧ ∃ m, res.errors = st.errors ++ [m]) ∨
    (∃ l, res.report = some l ∧ ohasKey l "triage_urgency" = true ∧
      res.errors = st.errors) := by
  unfold noFnBranch at h
  try dsimp only at h
  repeat' split at h
  all_goals
    first
    | exact StepOut.noConfusion h
    | (cases h
       first
       | with_reducible exact Or.inl ⟨rfl, _, rfl⟩
       | (rename_i heq
          first
          | with_reducible exact Or.inr (firstTryFn_some _ _ _ _ _ heq)
          | with_reducible exact Or.inr (secondTryFn_some _ _ _ _ _ heq)
          | with_reducible exact Or.inr (thirdTryFn_some _ _ _ _ _ heq)))

set_option maxHeartbeats 1600000 in
/-- A continuing no-function-call step keeps the turn counter. -/
theorem noFnBranch_cont (turn : Nat) (cfg : GenConfig) (mc : Option Content)
    (resp : Response) (st st'' : LoopState)
    (h : noFnBranch turn cfg mc resp st = .cont st'') :
    st''.turnsRun = st.turnsRun := by
  unfold noFnBranch at h
  try dsimp only at h
  repeat' split at h
  all_goals
    first
    | exact StepOut.noConfusion h
    | (cases h
       with_reducible rfl)

/-- The function-call branch keeps the turn counter. -/
theorem fnBranch_turnsRun (env : Env) (turn : Nat) (mc : Content)
    (calls : List FunctionCall) (st : LoopState) :
    (fnBranch env turn mc calls st).turnsRun = st.turnsRun := rfl

/-- Configuration choice keeps the error list. -/
theorem chooseConfig_errors (turn : Nat) (st : LoopState) :
    (chooseConfig turn st).2.errors = st.errors := by
  unfold chooseConfig
  split
  · rfl
  · split <;> rfl

/-- Configuration choice keeps the turn counter. -/
theorem chooseConfig_turnsRun (turn : Nat) (st : LoopState) :
    (chooseConfig turn st).2.turnsRun = st.turnsRun := by
  unfold chooseConfig
  split
  · rfl
  · split <;> rfl

/-- One-step unfolding of the turn loop, used in place of definitional
unfolding. -/
theorem runLoop_succ (env : Env) (fuel turn : Nat) (stIn : LoopState) :
    runLoop env (fuel + 1) turn stIn =
      (let st0 := { stIn with turnsRun := stIn.turnsRun + 1 }
       let cs := chooseConfig turn st0
       let cfg := cs.1
       let st := cs.2
       match retryGo env cfg MAX_RETRIES 0 st with
       | .fatal res st' => .ok (some res, st')
       | .ranOut st' => .ok (none, st')
       | .got r st' =>
         match r.candidates.head? with
         | none => .error .noCandidates
         | some cand =>
           match cand.content with
           | none =>
             match noFnBranch turn cfg none r st' with
             | .ret res => .ok (some res, st')
             | .cont st'' => runLoop env fuel (turn + 1) st''
           | some mc =>
             let fcs := if ¬ mc.parts.isEmpty then mc.parts.filterMap gpartFC else []
             if fcs.isEmpty then
               match noFnBranch turn cfg (some mc) r st' with
               | .ret res => .ok (some res, st')
               | .cont st'' => runLoop env fuel (turn + 1) st''
             else runLoop env fuel (turn + 1) (fnBranch env turn mc fcs st')) := rfl

/-- Packaging of the two step-result shapes into the two loop
guarantees: a missing report comes with at least one error, and a present
report contains `triage_urgency`. -/
theorem runResultP {res : RunResult} {base : List String}
    (h : (res.report = none ∧ ∃ m, res.errors = base ++ [m]) ∨
      (∃ l, res.report = some l ∧ ohasKey l "triage_urgency" = true ∧
        res.errors = base)) :
    (res.report = none → res.errors ≠ []) ∧
    (∀ l, res.report = some l → ohasKey l "triage_urgency" = true) := by
  rcases h with ⟨hn, m, he⟩ | ⟨l, hl, hk, _⟩
  · refine ⟨fun _ => ?_, fun l hl => ?_⟩
    · rw [he]; simp
    · rw [hn] at hl; cases hl
  · refine ⟨fun hnone => ?_, fun l' hl' => ?_⟩
    · rw [hl] at hnone; cases hnone
    · rw [hl] at hl'
      injection hl' with h2
      subst h2
      exact hk

/-- Any result the turn loop returns satisfies both loop guarantees:
no report implies a recorded error, and a report always carries
`triage_urgency`. -/
theorem runLoop_report (env : Env) :
    ∀ fuel turn st res st', runLoop env fuel turn st = .ok (some res, st') →
      (res.report = none → res.errors ≠ []) ∧
      (∀ l, res.report = some l → ohasKey l "triage_urgency" = true) := by
  intro fuel
  induction fuel with
  | zero =>
    intro turn st res st' h
    have h0 : runLoop env 0 turn st = .ok (none, st) := rfl
    rw [h0] at h
    cases h
  | succ f ih =>
    intro turn st res st' h
    rw [runLoop_succ] at h
    dsimp only at h
    split at h
    · rename_i res0 st1 heq
      cases h
      exact runResultP (Or.inl (retryGo_fatal_shape env _ _ _ _ _ _ heq))
    · cases h
    · rename_i r st1 heq
      split at h
      · exact Except.noConfusion h
      · rename_i cand hhead
        split at h
        · split at h
          · rename_i res0 hnfb
            cases h
            exact runResultP (noFnBranch_ret _ _ _ _ _ _ hnfb)
          · exact ih (turn + 1) _ res st' h
        · rename_i mc hmc
          split at h
          · split at h
            · split at h
              · rename_i res0 hnfb
                cases h
                exact runResultP (noFnBranch_ret _ _ _ _ _ _ hnfb)
              · exact ih (turn + 1) _ res st' h
            · exact ih (turn + 1) _ res st' h
          · rw [if_pos List.isEmpty_nil] at h
            split at h
            · rename_i res0 hnfb
              cases h
              exact runResultP (noFnBranch_ret _ _ _ _ _ _ hnfb)
            · exact ih (turn + 1) _ res st' h

/-- As long as every response the model client produces has at least one
candidate, the turn loop never hits the unguarded `response.candidates[0]`
access: it always returns instead of raising. -/
theorem runLoop_no_error (env : Env)
    (hcand : ∀ n c cfg r, env.gen n c cfg = .response r → r.candidates ≠ []) :
    ∀ fuel turn st e, runLoop env fuel turn st ≠ .error e := by
  intro fuel
  induction fuel with
  | zero =>
    intro turn st e h
    have h0 : runLoop env 0 turn st = .ok (none, st) := rfl
    rw [h0] at h
    cases h
  | succ f ih =>
    intro turn st e h
    rw [runLoop_succ] at h
    dsimp only at h
    split at h
    · cases h
    · cases h
    · rename_i r st1 heq
      split at h
      · rename_i hhead
        obtain ⟨n, c, hg⟩ := retryGo_got_gen env _ _ _ _ _ _ heq
        exact hcand n c _ r hg (List.head?_eq_none_iff.mp hhead)
      · rename_i cand hhead
        split at h
        · split at h
          · cases h
          · exact ih (turn + 1) _ e h
        · rename_i mc hmc
          split at h
          · split at h
            · split at h
              · cases h
              · exact ih (turn + 1) _ e h
            · exact ih (turn + 1) _ e h
          · rw [if_pos List.isEmpty_nil] at h
            split at h
            · cases h
            · exact ih (turn + 1) _ e h

/-- Equation form of `retryGo_turnsRun` keyed on a known outcome. -/
theorem retryGo_state_turnsRun (env : Env) (cfg : GenConfig) (rem attempt : Nat)
    (st : LoopState) {out : RetryOut} (h : retryGo env cfg rem attempt st = out) :
    out.state.turnsRun = st.turnsRun := by
  rw [← h]
  exact retryGo_turnsRun env cfg rem attempt st

/-- The loop runs at most `fuel` turns beyond the incoming count. -/
theorem runLoop_turns (env : Env) :
    ∀ fuel turn st o st', runLoop env fuel turn st = .ok (o, st') →
      st'.turnsRun ≤ st.turnsRun + fuel := by
  intro fuel
  induction fuel with
  | zero =>
    intro turn st o st' h
    have h0 : runLoop env 0 turn st = .ok (none, st) := rfl
    rw [h0] at h
    cases h
    exact Nat.le_refl _
  | succ f ih =>
    intro turn st o st' h
    rw [runLoop_succ] at h
    dsimp only at h
    split at h
    · rename_i res0 st1 heq
      cases h
      have h1 := retryGo_state_turnsRun _ _ _ _ _ heq
      simp only [RetryOut.state] at h1
      rw [chooseConfig_turnsRun] at h1
      dsimp only at h1
      omega
    · rename_i st1 heq
      cases h
      have h1 := retryGo_state_turnsRun _ _ _ _ _ heq
      simp only [RetryOut.state] at h1
      rw [chooseConfig_turnsRun] at h1
      dsimp only at h1
      omega
    · rename_i r st1 heq
      have h1 := retryGo_state_turnsRun _ _ _ _ _ heq
      simp only [RetryOut.state] at h1
      rw [chooseConfig_turnsRun] at h1
      dsimp only at h1
      split at h
      · cases h
      · rename_i cand hhead
        split at h
        · split at h
          · rename_i res0 hnfb
            cases h
            omega
          · rename_i st2 hnfb
            have h2 := noFnBranch_cont _ _ _ _ _ _ hnfb
            have h3 := ih (turn + 1) _ o st' h
            omega
        · rename_i mc hmc
          split at h
          · split at h
            · split at h
              · rename_i res0 hnfb
                cases h
                omega
              · rename_i st2 hnfb
                have h2 := noFnBranch_cont _ _ _ _ _ _ hnfb
                have h3 := ih (turn + 1) _ o st' h
                omega
            · have h3 := ih (turn + 1) _ o st' h
              rw [fnBranch_turnsRun] at h3
              omega
          · rw [if_pos List.isEmpty_nil] at h
            split at h
            · rename_i res0 hnfb
              cases h
              omega
            · rename_i st2 hnfb
              have h2 := noFnBranch_cont _ _ _ _ _ _ hnfb
              have h3 := ih (turn + 1) _ o st' h
              omega

/-- A transient API error strictly below the attempt ceiling sleeps the
backoff wait and retries with the next attempt number. -/
theorem retryGo_retry_step (env : Env) (cfg : GenConfig) (rem attempt : Nat)
    (st : LoopState) (cls msg : String)
    (hg : env.gen st.callIdx st.contents cfg = .apiError cls msg)
    (hr : isRetryableErr msg = true) (hlt : attempt < MAX_RETRIES - 1) :
    retryGo env cfg (rem + 1) attempt st = retryGo env cfg rem (attempt + 1)
      { st with
        callIdx := st.callIdx + 1,
        toolLogs := st.toolLogs ++ [blog env attempt st.callIdx],
        waits := st.waits ++ [bwait env attempt st.callIdx] } := by
  conv_lhs => rw [retryGo]
  rw [hg]
  dsimp only
  rw [if_pos ⟨hr, hlt⟩]
  rfl

/-- A non-transient API error, or one at the attempt ceiling, fails the
call at once with the fatal four-tuple of `utils.py` lines 450-454. -/
theorem retryGo_fatal_now (env : Env) (cfg : GenConfig) (rem attempt : Nat)
    (st : LoopState) (cls msg : String)
    (hg : env.gen st.callIdx st.contents cfg = .apiError cls msg)
    (hnr : ¬ (isRetryableErr msg = true ∧ attempt < MAX_RETRIES - 1)) :
    retryGo env cfg (rem + 1) attempt st =
      .fatal { report := none, rawText := some ("Error: " ++ msg),
               toolLog := st.toolLogs,
               errors := st.errors ++
                 ["Fatal API Error after " ++ toString MAX_RETRIES ++ " retries: " ++
                   cls ++ " - " ++ msg] }
        { st with callIdx := st.callIdx + 1 } := by
  conv_lhs => rw [retryGo]
  rw [hg]
  dsimp only
  rw [if_neg hnr]

/-- Any non-API exception fails the call at once (`utils.py` lines
455-457 / the outer handler). -/
theorem retryGo_fatal_other (env : Env) (cfg : GenConfig) (rem attempt : Nat)
    (st : LoopState) (msg : String)
    (hg : env.gen st.callIdx st.contents cfg = .otherError msg) :
    retryGo env cfg (rem + 1) attempt st =
      .fatal { report := none, rawText := some "Error: Unexpected Runtime Issue.",
               toolLog := st.toolLogs,
               errors := st.errors ++ ["Unexpected Error: " ++ msg] }
        { st with callIdx := st.callIdx + 1 } := by
  conv_lhs => rw [retryGo]
  rw [hg]

/-- A turn whose model call fails fatally makes the whole loop return
that fatal result. -/
theorem runLoop_first_fatal (env : Env) (fuel turn : Nat) (stIn : LoopState)
    (res : RunResult) (st1 : LoopState)
    (hf : retryGo env (chooseConfig turn { stIn with turnsRun := stIn.turnsRun + 1 }).1
        MAX_RETRIES 0
        (chooseConfig turn { stIn with turnsRun := stIn.turnsRun + 1 }).2 = .fatal res st1) :
    runLoop env (fuel + 1) turn stIn = .ok (some res, st1) := by
  rw [runLoop_succ]
  dsimp only
  rw [hf]

/-- Composition: a loop run that returns a result is the whole of
`run_triage_agent` (modulo the final stats). -/
theorem run_post_some (env : Env) (u : String) (i m : Option String)
    (l : Option JObj) (v : Option (List VitalsEntry)) (a : Option String)
    (res : RunResult) (stL : LoopState)
    (hc : env.hasClient = true)
    (hL : runLoop env MAX_TURNS 0 (initState env u i m l v a) = .ok (some res, stL)) :
    run_triage_agent env u i m l v a = .ok (res, statsOf stL false) := by
  unfold run_triage_agent
  rw [if_neg (by simp [hc])]
  rw [hL]

/-- C1: for every behaviour of the external model, `run_triage_agent`
runs at most `MAX_TURNS` (5) turns; when the budget is exhausted it makes
exactly one `finalExtract` attempt against the most recent captured raw
response: a successful attempt returns that report (with its JSON text)
plus the warning error, a failed one returns no report and a non-empty
error list containing the max-turns message. -/
theorem C1_turn_budget (env : Env) (u : String) (i m : Option String)
    (l : Option JObj) (v : Option (List VitalsEntry)) (a : Option String)
    (res : RunResult) (st : RunStats)
    (h : run_triage_agent env u i m l v a = .ok (res, st)) :
    st.turns ≤ MAX_TURNS ∧
    (st.exhausted = true →
      (match finalExtract st.lastResponse with
       | some (rep, je) =>
         res.report = some rep ∧ res.rawText = some je ∧
           "Warning: Maximum turns reached, but extracted partial response." ∈ res.errors
       | none =>
         res.report = none ∧ res.errors ≠ [] ∧
           ("Maximum turns (" ++ toString MAX_TURNS ++ ") reached without final response.")
             ∈ res.errors)) := by
  unfold run_triage_agent at h
  split at h
  · cases h
  · split at h
    · cases h
    · rename_i res0 stL heq
      cases h
      have ht := runLoop_turns env MAX_TURNS 0 _ _ _ heq
      dsimp only [initState] at ht
      constructor
      · dsimp only [statsOf]
        omega
      · intro hex
        dsimp only [statsOf] at hex
        cases hex
    · rename_i stL heq
      split at h
      · rename_i rep je hfe
        cases h
        have ht := runLoop_turns env MAX_TURNS 0 _ _ _ heq
        dsimp only [initState] at ht
        constructor
        · dsimp only [statsOf]
          omega
        · intro _
          dsimp only [statsOf]
          rw [hfe]
          exact ⟨rfl, rfl, by simp⟩
      · rename_i hfe
        cases h
        have ht := runLoop_turns env MAX_TURNS 0 _ _ _ heq
        dsimp only [initState] at ht
        constructor
        · dsimp only [statsOf]
          omega
        · intro _
          dsimp only [statsOf]
          rw [hfe]
          exact ⟨rfl, by simp, by simp⟩

/-- C1 witness: with the always-tool-calling stub the run exhausts its 5
turns, the final extraction attempt fails, and the result has no report, a
max-turns error, and at least 5 tool-log lines. -/
theorem C1_turn_budget_witness :
    c1out.2.turns ≤ MAX_TURNS ∧ c1out.2.exhausted = true ∧
    c1out.1.report = none ∧ c1out.1.errors ≠ [] ∧
    ("Maximum turns (" ++ toString MAX_TURNS ++ ") reached without final response.")
      ∈ c1out.1.errors ∧
    MAX_TURNS ≤ c1out.1.toolLog.length := by
  have hc := C1_turn_budget c1env "notes" none none none none none c1out.1 c1out.2 rfl
  have h2 := hc.2 rfl
  exact ⟨hc.1, rfl, h2.1, h2.2.1, h2.2.2, by decide⟩

/-- C2 counterexample: `run_triage_agent` does not return its four-tuple
on every input and model behaviour — it raises when no client is
configured (`utils.py` line 360) and when a response arrives with an
empty candidate list (the unguarded `response.candidates[0]` at line
460). -/
theorem C2_counterexample :
    run_triage_agent c2envNoClient "n" none none none none none =
      .error .clientNotInitialized ∧
    run_triage_agent c2envEmptyCand "n" none none none none none =
      .error .noCandidates := ⟨rfl, rfl⟩

/-- C2 (amended): under a configured client whose responses always carry
at least one candidate, `run_triage_agent` always returns its four-tuple
result, and an absent report comes with a non-empty error list. -/
theorem C2_amended (env : Env) (u : String) (i m : Option String)
    (l : Option JObj) (v : Option (List VitalsEntry)) (a : Option String)
    (hc : env.hasClient = true)
    (hcand : ∀ n c cfg r, env.gen n c cfg = .response r → r.candidates ≠ []) :
    ∃ res st, run_triage_agent env u i m l v a = .ok (res, st) ∧
      (res.report = none → res.errors ≠ []) := by
  unfold run_triage_agent
  rw [if_neg (by simp [hc])]
  cases hout : runLoop env MAX_TURNS 0 (initState env u i m l v a) with
  | error e => exact absurd hout (runLoop_no_error env hcand _ _ _ _)
  | ok out =>
    rcases out with ⟨o, stL⟩
    rcases o with _ | res0
    · dsimp only
      cases hfe : finalExtract stL.lastResponse with
      | none =>
        exact ⟨_, _, rfl, fun _ => by simp⟩
      | some p =>
        rcases p with ⟨rep, je⟩
        exact ⟨_, _, rfl, fun hn => Option.noConfusion hn⟩
    · exact ⟨res0, statsOf stL false, rfl,
        (runLoop_report env MAX_TURNS 0 _ res0 stL hout).1⟩

/-- C2 witness: the amended theorem applied to a concrete environment
whose client never yields a candidate-less response. -/
theorem C2_amended_witness :
    ∃ res st, run_triage_agent c2envGood "n" none none none none none =
      .ok (res, st) ∧ (res.report = none → res.errors ≠ []) :=
  C2_amended c2envGood "n" none none none none none rfl
    (fun n c cfg r h => by cases h; exact List.cons_ne_nil _ _)

/-- C3 counterexample: the post-budget salvage (`utils.py` line 694)
checks only `isinstance(final_report, dict) and final_report`, not
`triage_urgency`, so `run_triage_agent` can return a report without any
urgency key. -/
theorem C3_counterexample :
    run_triage_agent c3env "n" none none none none none = .ok (c3out.1, c3out.2) ∧
    c3out.1.report = some [("foo", Json.num 1)] ∧
    ohasKey [("foo", Json.num 1)] "triage_urgency" = false := ⟨rfl, rfl, rfl⟩

/-- C3 (amended): a returned report either contains `triage_urgency` (all
in-loop acceptance paths check it) or was produced by the post-budget
salvage, in which case the max-turns warning is recorded in the errors. -/
theorem C3_amended (env : Env) (u : String) (i m : Option String)
    (l : Option JObj) (v : Option (List VitalsEntry)) (a : Option String)
    (res : RunResult) (st : RunStats) (rep : JObj)
    (h : run_triage_agent env u i m l v a = .ok (res, st))
    (hrep : res.report = some rep) :
    ohasKey rep "triage_urgency" = true ∨
      "Warning: Maximum turns reached, but extracted partial response." ∈ res.errors := by
  unfold run_triage_agent at h
  split at h
  · cases h
  · split at h
    · cases h
    · rename_i res0 stL heq
      cases h
      exact Or.inl ((runLoop_report env MAX_TURNS 0 _ _ stL heq).2 rep hrep)
    · rename_i stL heq
      split at h
      · rename_i rep2 je hfe
        cases h
        right
        simp
      · cases h
        exact Option.noConfusion hrep

/-- C3 witness: the amended theorem applied to the well-formed stub run,
whose report does carry `triage_urgency`. -/
theorem C3_amended_witness :
    ohasKey [("triage_urgency", Json.str "High")] "triage_urgency" = true ∨
      "Warning: Maximum turns reached, but extracted partial response." ∈ c3g.1.errors := by
  have hrep : c3g.1.report = some [("triage_urgency", Json.str "High")] := rfl
  exact C3_amended c3goodEnv "n" none none none none none c3g.1 c3g.2
    [("triage_urgency", Json.str "High")] rfl hrep

/-- C4: the retry policy of the model-call wrapper (`utils.py` lines
418-457). (1) A transient API error (lowercased description containing
one of the markers 429 / resource_exhausted / quota / 500 / internal /
server) strictly below the 5-attempt ceiling sleeps `2 ** attempt +
jitter` and retries; (2) a non-transient API error, or one at the
ceiling, returns the fatal four-tuple at once with the causing error
recorded; (3) so does any non-API exception; (4) five consecutive
transient errors exhaust the ceiling after exactly four backoff waits and
return the fatal four-tuple of the last error; (5) consequently a run
whose every model call raises the same non-transient API error returns
immediately — report absent, the fatal error as the only recorded
error. -/
theorem C4_retry_policy :
    (∀ (env : Env) (cfg : GenConfig) (rem attempt : Nat) (st : LoopState) (cls msg : String),
      env.gen st.callIdx st.contents cfg = .apiError cls msg →
      isRetryableErr msg = true → attempt < MAX_RETRIES - 1 →
      retryGo env cfg (rem + 1) attempt st = retryGo env cfg rem (attempt + 1)
        { st with
          callIdx := st.callIdx + 1,
          toolLogs := st.toolLogs ++ [blog env attempt st.callIdx],
          waits := st.waits ++ [bwait env attempt st.callIdx] }) ∧
    (∀ (env : Env) (cfg : GenConfig) (rem attempt : Nat) (st : LoopState) (cls msg : String),
      env.gen st.callIdx st.contents cfg = .apiError cls msg →
      ¬ (isRetryableErr msg = true ∧ attempt < MAX_RETRIES - 1) →
      retryGo env cfg (rem + 1) attempt st =
        .fatal { report := none, rawText := some ("Error: " ++ msg),
                 toolLog := st.toolLogs,
                 errors := st.errors ++
                   ["Fatal API Error after " ++ toString MAX_RETRIES ++ " retries: " ++
                     cls ++ " - " ++ msg] }
          { st with callIdx := st.callIdx + 1 }) ∧
    (∀ (env : Env) (cfg : GenConfig) (rem attempt : Nat) (st : LoopState) (msg : String),
      env.gen st.callIdx st.contents cfg = .otherError msg →
      retryGo env cfg (rem + 1) attempt st =
        .fatal { report := none, rawText := some "Error: Unexpected Runtime Issue.",
                 toolLog := st.toolLogs,
                 errors := st.errors ++ ["Unexpected Error: " ++ msg] }
          { st with callIdx := st.callIdx + 1 }) ∧
    (∀ (env : Env) (cfg : GenConfig) (st : LoopState) (cls msg : Nat → String),
      (∀ k, k < MAX_RETRIES →
        env.gen (st.callIdx + k) st.contents cfg = .apiError (cls k) (msg k)) →
      (∀ k, k < MAX_RETRIES - 1 → isRetryableErr (msg k) = true) →
      retryGo env cfg MAX_RETRIES 0 st =
        .fatal { report := none, rawText := some ("Error: " ++ msg 4),
                 toolLog := st.toolLogs ++ [blog env 0 st.callIdx] ++
                   [blog env 1 (st.callIdx + 1)] ++ [blog env 2 (st.callIdx + 1 + 1)] ++
                   [blog env 3 (st.callIdx + 1 + 1 + 1)],
                 errors := st.errors ++
                   ["Fatal API Error after " ++ toString MAX_RETRIES ++ " retries: " ++
                     cls 4 ++ " - " ++ msg 4] }
          { st with
            callIdx := st.callIdx + 1 + 1 + 1 + 1 + 1,
            toolLogs := st.toolLogs ++ [blog env 0 st.callIdx] ++
              [blog env 1 (st.callIdx + 1)] ++ [blog env 2 (st.callIdx + 1 + 1)] ++
              [blog env 3 (st.callIdx + 1 + 1 + 1)],
            waits := st.waits ++ [bwait env 0 st.callIdx] ++
              [bwait env 1 (st.callIdx + 1)] ++ [bwait env 2 (st.callIdx + 1 + 1)] ++
              [bwait env 3 (st.callIdx + 1 + 1 + 1)] }) ∧
    (∀ (env : Env) (u : String) (i m : Option String) (l : Option JObj)
       (v : Option (List VitalsEntry)) (a : Option String) (cls msg : String),
      env.hasClient = true →
      (∀ n c cfg, env.gen n c cfg = .apiError cls msg) →
      isRetryableErr msg = false →
      ∃ st, run_triage_agent env u i m l v a =
        .ok ({ report := none, rawText := some ("Error: " ++ msg), toolLog := [],
               errors := ["Fatal API Error after " ++ toString MAX_RETRIES ++ " retries: " ++
                 cls ++ " - " ++ msg] }, st)) := by
  refine ⟨retryGo_retry_step, retryGo_fatal_now, retryGo_fatal_other, ?_, ?_⟩
  · intro env cfg st cls msg hgen hret
    have s0 := retryGo_retry_step env cfg 4 0 st (cls 0) (msg 0)
      (hgen 0 (by decide)) (hret 0 (by decide)) (by decide)
    have s1 := retryGo_retry_step env cfg 3 1
      { st with
        callIdx := st.callIdx + 1,
        toolLogs := st.toolLogs ++ [blog env 0 st.callIdx],
        waits := st.waits ++ [bwait env 0 st.callIdx] }
      (cls 1) (msg 1) (hgen 1 (by decide)) (hret 1 (by decide)) (by decide)
    have s2 := retryGo_retry_step env cfg 2 2
      { st with
        callIdx := st.callIdx + 1 + 1,
        toolLogs := st.toolLogs ++ [blog env 0 st.callIdx] ++ [blog env 1 (st.callIdx + 1)],
        waits := st.waits ++ [bwait env 0 st.callIdx] ++ [bwait env 1 (st.callIdx + 1)] }
      (cls 2) (msg 2) (hgen 2 (by decide)) (hret 2 (by decide)) (by decide)
    have s3 := retryGo_retry_step env cfg 1 3
      { st with
        callIdx := st.callIdx + 1 + 1 + 1,
        toolLogs := st.toolLogs ++ [blog env 0 st.callIdx] ++
          [blog env 1 (st.callIdx + 1)] ++ [blog env 2 (st.callIdx + 1 + 1)],
        waits := st.waits ++ [bwait env 0 st.callIdx] ++
          [bwait env 1 (st.callIdx + 1)] ++ [bwait env 2 (st.callIdx + 1 + 1)] }
      (cls 3) (msg 3) (hgen 3 (by decide)) (hret 3 (by decide)) (by decide)
    have s4 := retryGo_fatal_now env cfg 0 4
      { st with
        callIdx := st.callIdx + 1 + 1 + 1 + 1,
        toolLogs := st.toolLogs ++ [blog env 0 st.callIdx] ++
          [blog env 1 (st.callIdx + 1)] ++ [blog env 2 (st.callIdx + 1 + 1)] ++
          [blog env 3 (st.callIdx + 1 + 1 + 1)],
        waits := st.waits ++ [bwait env 0 st.callIdx] ++
          [bwait env 1 (st.callIdx + 1)] ++ [bwait env 2 (st.callIdx + 1 + 1)] ++
          [bwait env 3 (st.callIdx + 1 + 1 + 1)] }
      (cls 4) (msg 4) (hgen 4 (by decide))
      (fun hand => absurd hand.2 (by decide))
    exact s0.trans (s1.trans (s2.trans (s3.trans s4)))
  · intro env u i m l v a cls msg hc hgen hnr
    have hf := retryGo_fatal_now env
      (chooseConfig 0 { initState env u i m l v a with
        turnsRun := (initState env u i m l v a).turnsRun + 1 }).1 4 0
      (chooseConfig 0 { initState env u i m l v a with
        turnsRun := (initState env u i m l v a).turnsRun + 1 }).2 cls msg
      (hgen _ _ _)
      (fun hand => by rw [hnr] at hand; exact Bool.noConfusion hand.1)
    have hL := runLoop_first_fatal env 4 0 (initState env u i m l v a) _ _ hf
    have hrun := run_post_some env u i m l v a _ _ hc hL
    exact ⟨_, hrun⟩

/-- C4 witness: the exhaustion clause at a client of constant transient
500-errors (five attempts, four backoff waits), and the immediate-fatal
run clause at a client of constant non-transient errors. -/
theorem C4_retry_policy_witness :
    (retryGo c4env GenConfig.toolTurn MAX_RETRIES 0 c4st0 =
      .fatal { report := none,
               rawText := some ("Error: " ++ "500 internal server error"),
               toolLog := c4st0.toolLogs ++ [blog c4env 0 c4st0.callIdx] ++
                 [blog c4env 1 (c4st0.callIdx + 1)] ++
                 [blog c4env 2 (c4st0.callIdx + 1 + 1)] ++
                 [blog c4env 3 (c4st0.callIdx + 1 + 1 + 1)],
               errors := c4st0.errors ++
                 ["Fatal API Error after " ++ toString MAX_RETRIES ++ " retries: " ++
                   "ServerError" ++ " - " ++ "500 internal server error"] }
        { c4st0 with
          callIdx := c4st0.callIdx + 1 + 1 + 1 + 1 + 1,
          toolLogs := c4st0.toolLogs ++ [blog c4env 0 c4st0.callIdx] ++
            [blog c4env 1 (c4st0.callIdx + 1)] ++
            [blog c4env 2 (c4st0.callIdx + 1 + 1)] ++
            [blog c4env 3 (c4st0.callIdx + 1 + 1 + 1)],
          waits := c4st0.waits ++ [bwait c4env 0 c4st0.callIdx] ++
            [bwait c4env 1 (c4st0.callIdx + 1)] ++
            [bwait c4env 2 (c4st0.callIdx + 1 + 1)] ++
            [bwait c4env 3 (c4st0.callIdx + 1 + 1 + 1)] }) ∧
    (∃ st, run_triage_agent c4envBad "n" none none none none none =
      .ok ({ report := none, rawText := some ("Error: " ++ "bad input"), toolLog := [],
             errors := ["Fatal API Error after " ++ toString MAX_RETRIES ++ " retries: " ++
               "ValueError" ++ " - " ++ "bad input"] }, st)) := by
  constructor
  · exact C4_retry_policy.2.2.2.1 c4env GenConfig.toolTurn c4st0
      (fun _ => "ServerError") (fun _ => "500 internal server error")
      (fun k _ => rfl) (fun k _ => rfl)
  · exact C4_retry_policy.2.2.2.2 c4envBad "n" none none none none none
      "ValueError" "bad input" rfl (fun _ _ _ => rfl) rfl
